import Mathlib

/-!
# FusionEKF: sensor-fusion orchestrator of an extended Kalman filter

A shallow embedding of `src/FusionEKF.cpp`.

Conventions of the embedding.

* `float`/`double` values are elements of a linearly ordered field `α` with a
  floor function; arithmetic is exact (the rounding of `dt`, of its powers and
  of the matrix operations is not modelled).  The one conversion that is
  modelled is the narrowing `double → float` of the values that seed the state
  vector (lines 91-110), by `float32`.  Decimal literals of the source are kept
  as decimal literals.
* `long long` timestamps are integers (no wrap-around).
* Eigen's dynamically sized `MatrixXd`/`VectorXd` are Mathlib matrices and
  functions on `Fin n`.  The only members whose shape changes at run time are
  `KalmanFilter::H_` and `KalmanFilter::R_`; they share their row count, kept
  in the field `m`, and the two consecutive assignments `ekf_.H_ = ...;
  ekf_.R_ = ...;` are one record update.
* `std::cos`, `std::sin`, `Tools::CalculateJacobian` and the radar measurement
  function used inside `KalmanFilter::UpdateEKF` are not part of
  `FusionEKF.cpp`; they are the fields of `Env`.  `ProcessMeasurement` is the
  function as it runs when `CalculateJacobian` returns a matrix;
  `ProcessMeasurementExcept` adds the failure of that computation which the
  specification describes: it ends the call at line 167, there being no handler
  in `FusionEKF.cpp`.
* `ProcessMeasurement` also returns the list of `KalmanFilter` member calls it
  makes, each with the filter as it is on entry to the call.
-/

/-! ## Data model -/

/-- The class `KalmanFilter` (member `ekf_` of `FusionEKF`): state vector,
covariance, transition matrix, process noise, and the measurement matrix and
measurement noise currently selected (`m` rows). -/
structure KalmanFilter (α : Type) where
  x_ : Fin 4 → α
  P_ : Matrix (Fin 4) (Fin 4) α
  F_ : Matrix (Fin 4) (Fin 4) α
  Q_ : Matrix (Fin 4) (Fin 4) α
  m : Nat
  H_ : Matrix (Fin m) (Fin 4) α
  R_ : Matrix (Fin m) (Fin m) α

/-- The enum `MeasurementPackage::SensorType`. -/
inductive SensorType where
  | LASER
  | RADAR
deriving DecidableEq, Repr

/-- Number of raw values a sensor delivers: `(x, y)` for laser,
`(range, bearing, range-rate)` for radar. -/
def SensorType.dim : SensorType → Nat
  | SensorType.LASER => 2
  | SensorType.RADAR => 3

/-- The class `MeasurementPackage`. -/
structure MeasurementPackage (α : Type) where
  timestamp_ : Int
  sensor_type_ : SensorType
  raw_measurements_ : Fin sensor_type_.dim → α

/-- The class `FusionEKF` (the stateless member `tools` lives in `Env`). -/
structure FusionEKF (α : Type) where
  ekf_ : KalmanFilter α
  is_initialized_ : Bool
  previous_timestamp_ : Int
  R_laser_ : Matrix (Fin 2) (Fin 2) α
  R_radar_ : Matrix (Fin 3) (Fin 3) α
  H_laser_ : Matrix (Fin 2) (Fin 4) α
  Hj_ : Matrix (Fin 3) (Fin 4) α
  noise_ax : α
  noise_ay : α

/-- What `FusionEKF.cpp` uses but does not define: `cos` and `sin` of
`<cmath>` (called on `float` arguments), the matrix `Tools::CalculateJacobian`
returns when it returns one (the call site streams it into `Hj_` as a 3×4
matrix; its failure is the subject of `Tools.CalculateJacobian`), the radar
measurement function `h` and the bearing normalisation applied to the
innovation inside `UpdateEKF`. -/
structure Env (α : Type) where
  cos : α → α
  sin : α → α
  CalculateJacobian : (Fin 4 → α) → Matrix (Fin 3) (Fin 4) α
  h : (Fin 4 → α) → Fin 3 → α
  normalize : α → α

/-- A call of a `KalmanFilter` member made by `ProcessMeasurement`, with the
filter on entry and the argument. -/
inductive Call (α : Type) where
  | Predict (ekf : KalmanFilter α)
  | Update (ekf : KalmanFilter α) (z : Fin ekf.m → α)
  | UpdateEKF (ekf : KalmanFilter α) (z : Fin ekf.m → α)

/-- Modelled from the spec: the failure of the Jacobian computation
(sections 4.2 and 6; tools.cpp is not under src/). -/
inductive Tools.Error where
  | DegenerateState

/-- What a call of `ProcessMeasurement` leaves behind when the Jacobian
computation can fail: the object, the `KalmanFilter` calls made, and the
failure that ended the call, if any. -/
structure Outcome (α : Type) where
  state : FusionEKF α
  calls : List (Call α)
  failure : Option Tools.Error

section Model

variable {α : Type} [LinearOrderedField α]

/-! ## KalmanFilter -/

/-- Inverse of the innovation covariance, `S.inverse()`: adjugate over
determinant. -/
def KalmanFilter.inverse {m : Nat} (S : Matrix (Fin m) (Fin m) α) :
    Matrix (Fin m) (Fin m) α :=
  (S.det)⁻¹ • S.adjugate

/-- Modelled from the spec: `KalmanFilter::Init` (kalman_filter.cpp is not
under src/): "sets all owned matrices/vectors to caller-supplied values". -/
def KalmanFilter.Init {m : Nat} (x_in : Fin 4 → α) (P_in F_in : Matrix (Fin 4) (Fin 4) α)
    (H_in : Matrix (Fin m) (Fin 4) α) (R_in : Matrix (Fin m) (Fin m) α)
    (Q_in : Matrix (Fin 4) (Fin 4) α) : KalmanFilter α :=
  { x_ := x_in, P_ := P_in, F_ := F_in, Q_ := Q_in, m := m, H_ := H_in, R_ := R_in }

/-- Modelled from the spec: `KalmanFilter::Predict` (kalman_filter.cpp is not
under src/): "`x ← F·x`; `P ← F·P·Fᵀ + Q`. No side effects beyond these two
owned fields." -/
def KalmanFilter.Predict (k : KalmanFilter α) : KalmanFilter α :=
  { k with
    x_ := k.F_.mulVec k.x_
    P_ := k.F_ * k.P_ * k.F_.transpose + k.Q_ }

/-- The update law shared by both updates, given the innovation `y`:
`S = H·P·Hᵀ + R`; `K = P·Hᵀ·S⁻¹`; `x ← x + K·y`; `P ← (I − K·H)·P`. -/
def KalmanFilter.correct {m : Nat} (x : Fin 4 → α) (P : Matrix (Fin 4) (Fin 4) α)
    (H : Matrix (Fin m) (Fin 4) α) (R : Matrix (Fin m) (Fin m) α) (y : Fin m → α) :
    (Fin 4 → α) × Matrix (Fin 4) (Fin 4) α :=
  let S := H * P * H.transpose + R
  let K := P * H.transpose * KalmanFilter.inverse S
  (x + K.mulVec y, (1 - K * H) * P)

/-- Modelled from the spec: `KalmanFilter::Update` (kalman_filter.cpp is not
under src/): "standard linear Kalman update using the currently set H, R:
`y = z − H·x`; `S = H·P·Hᵀ + R`; `K = P·Hᵀ·S⁻¹`; `x ← x + K·y`;
`P ← (I − K·H)·P`". -/
def KalmanFilter.Update (k : KalmanFilter α) (z : Fin k.m → α) : KalmanFilter α :=
  let y := z - k.H_.mulVec k.x_
  let r := KalmanFilter.correct k.x_ k.P_ k.H_ k.R_ y
  { k with x_ := r.1, P_ := r.2 }

/-- Bearing normalisation of a radar innovation (component 1). -/
def KalmanFilter.normalizeBearing (env : Env α) (y : Fin 3 → α) : Fin 3 → α :=
  ![y 0, env.normalize (y 1), y 2]

/-- Modelled from the spec: `KalmanFilter::UpdateEKF` (kalman_filter.cpp is
not under src/): "same update law but the innovation uses the nonlinear
measurement function `hFn(x)` instead of `H·x`: `y = z − hFn(x)`, and the
Jacobian stands in for `H` in computing `S` and `K`", the bearing component of
`y` being normalised.  The radar measurement has three components; with any
other row count of `H_` the shapes do not fit and the filter is returned as it
is. -/
def KalmanFilter.UpdateEKF (env : Env α) :
    (k : KalmanFilter α) → (Fin k.m → α) → KalmanFilter α
  | ⟨x, P, F, Q, 3, H, R⟩, z =>
      let y := KalmanFilter.normalizeBearing env (z - env.h x)
      let r := KalmanFilter.correct x P H R y
      ⟨r.1, r.2, F, Q, 3, H, R⟩
  | k, _ => k

/-! ## FusionEKF -/

/-- `R_laser_ << 0.0225, 0, 0, 0.0225;` -/
def FusionEKF.R_laser_init : Matrix (Fin 2) (Fin 2) α :=
  !![0.0225, 0;
     0, 0.0225]

/-- `R_radar_ << 0.09, 0, 0, 0, 0.0009, 0, 0, 0, 0.09;` -/
def FusionEKF.R_radar_init : Matrix (Fin 3) (Fin 3) α :=
  !![0.09, 0, 0;
     0, 0.0009, 0;
     0, 0, 0.09]

/-- The local `P_init` of the constructor. -/
def FusionEKF.P_init : Matrix (Fin 4) (Fin 4) α :=
  !![1, 0, 0, 0;
     0, 1, 0, 0;
     0, 0, 1000, 0;
     0, 0, 0, 1000]

/-- The local `F_init` of the constructor. -/
def FusionEKF.F_init : Matrix (Fin 4) (Fin 4) α :=
  !![1, 0, 1, 0;
     0, 1, 0, 1;
     0, 0, 1, 0;
     0, 0, 0, 1]

/-- `H_laser_ << 1, 0, 0, 0, 0, 1, 0, 0;` -/
def FusionEKF.H_laser_init : Matrix (Fin 2) (Fin 4) α :=
  !![1, 0, 0, 0;
     0, 1, 0, 0]

/-- The local `x_init` of the constructor. -/
def FusionEKF.x_init : Fin 4 → α :=
  ![1, 1, 1, 1]

/-- The local `Q_init` of the constructor. -/
def FusionEKF.Q_init : Matrix (Fin 4) (Fin 4) α :=
  !![1, 0, 1, 0;
     0, 1, 0, 1;
     1, 0, 1, 0;
     0, 1, 0, 1]

/-- The constructor `FusionEKF::FusionEKF()`.  `Hj_ = MatrixXd(3, 4)` is
allocated and not filled; its content is the argument `Hj_alloc`. -/
def FusionEKF.construct (Hj_alloc : Matrix (Fin 3) (Fin 4) α) : FusionEKF α :=
  { is_initialized_ := false
    previous_timestamp_ := 0
    R_laser_ := FusionEKF.R_laser_init
    R_radar_ := FusionEKF.R_radar_init
    H_laser_ := FusionEKF.H_laser_init
    Hj_ := Hj_alloc
    ekf_ := KalmanFilter.Init FusionEKF.x_init FusionEKF.P_init FusionEKF.F_init
      FusionEKF.H_laser_init FusionEKF.R_laser_init FusionEKF.Q_init
    noise_ax := 9
    noise_ay := 9 }

/-- Coefficient assignment `M(i, j) = v`. -/
def setCoeff {r c : Nat} (M : Matrix (Fin r) (Fin c) α) (i : Fin r) (j : Fin c) (v : α) :
    Matrix (Fin r) (Fin c) α :=
  Matrix.of fun a b => if a = i ∧ b = j then v else M a b

variable [FloorRing α]

/-- Rounding to the nearest integer, ties to the even one. -/
def roundHalfEven (r : α) : Int :=
  let n := ⌊r⌋
  if r - n < 1 / 2 then n
  else if 1 / 2 < r - n then n + 1
  else if n % 2 = 0 then n else n + 1

/-- The conversion `double → float` (IEEE 754 binary32, round to nearest, ties
to even, subnormal range included): `x` is rounded to a multiple of
`2 ^ (e - 23)`, where `e` is the binary exponent of `x`, not below `-126`.
Values beyond the largest `float`, where the conversion overflows, are outside
the model. -/
def float32 (x : α) : α :=
  if x = 0 then 0
  else
    let e : Int := max (Int.log 2 |x|) (-126)
    let ulp : α := 2 ^ (e - 23)
    (roundHalfEven (x / ulp) : α) * ulp

/-- Lines 91-111: `px_init`, `py_init` of the first measurement, as the `float`
locals hold them: `r_init`, `theta_init`, `px_init` and `py_init` are declared
`float`, so the raw values and the products are narrowed. -/
def FusionEKF.initialPosition (env : Env α) : MeasurementPackage α → α × α
  | ⟨_, SensorType.RADAR, raw⟩ =>
      let z : Fin 3 → α := raw
      let r_init := float32 (z 0)
      let theta_init := float32 (z 1)
      (float32 (r_init * env.cos theta_init), float32 (r_init * env.sin theta_init))
  | ⟨_, SensorType.LASER, raw⟩ =>
      let z : Fin 2 → α := raw
      (float32 (z 0), float32 (z 1))

/-- Line 133: `dt = (timestamp_ - previous_timestamp_) / 1000000.0`. -/
def FusionEKF.elapsed (s : FusionEKF α) (meas : MeasurementPackage α) : α :=
  ((meas.timestamp_ - s.previous_timestamp_ : Int) : α) / 1000000

/-- Lines 136-151: the filter as it is when `Predict` is called: for
`dt > 0.0001` the entries `F_(0,2)`, `F_(1,3)` are set to `dt` and `Q_` is
rebuilt, otherwise the filter is untouched. -/
def FusionEKF.refresh (s : FusionEKF α) (dt : α) : KalmanFilter α :=
  if dt > 0.0001 then
    let dt2 := dt * dt
    let dt3 := dt2 * dt
    let dt4 := dt3 * dt
    { s.ekf_ with
      F_ := setCoeff (setCoeff s.ekf_.F_ 0 2 dt) 1 3 dt
      Q_ := !![dt4 / 4 * s.noise_ax, 0, dt3 / 2 * s.noise_ax, 0;
               0, dt4 / 4 * s.noise_ay, 0, dt3 / 2 * s.noise_ay;
               dt3 / 2 * s.noise_ax, 0, dt2 * s.noise_ax, 0;
               0, dt3 / 2 * s.noise_ay, 0, dt2 * s.noise_ay] }
  else s.ekf_

/-- Lines 164-176: the update step, dispatched on the sensor type, applied to
the predicted filter `p`; returns the new object and the call made. -/
def FusionEKF.dispatch (env : Env α) (s : FusionEKF α) (p : KalmanFilter α) :
    (meas : MeasurementPackage α) → FusionEKF α × Call α
  | ⟨_, SensorType.RADAR, raw⟩ =>
      let Hj := env.CalculateJacobian p.x_
      let k : KalmanFilter α := { p with m := 3, H_ := Hj, R_ := s.R_radar_ }
      ({ s with Hj_ := Hj, ekf_ := KalmanFilter.UpdateEKF env k raw }, Call.UpdateEKF k raw)
  | ⟨_, SensorType.LASER, raw⟩ =>
      let k : KalmanFilter α := { p with m := 2, H_ := s.H_laser_, R_ := s.R_laser_ }
      ({ s with ekf_ := KalmanFilter.Update k raw }, Call.Update k raw)

/-- `FusionEKF::ProcessMeasurement`, with the list of `KalmanFilter` calls it
makes. -/
def FusionEKF.ProcessMeasurementCalls (env : Env α) (s : FusionEKF α)
    (meas : MeasurementPackage α) : FusionEKF α × List (Call α) :=
  if !s.is_initialized_ then
    let p := FusionEKF.initialPosition env meas
    let px_init := p.1
    let py_init := p.2
    let vx_init : α := 0
    let vy_init : α := 0
    if px_init < 0.0001 ∧ py_init < 0.0001 then (s, [])
    else
      ({ s with
          ekf_ := { s.ekf_ with x_ := ![px_init, py_init, vx_init, vy_init] }
          previous_timestamp_ := meas.timestamp_
          is_initialized_ := true }, [])
  else
    let dt := FusionEKF.elapsed s meas
    let s1 := { s with previous_timestamp_ := meas.timestamp_ }
    let k := FusionEKF.refresh s1 dt
    let r := FusionEKF.dispatch env s1 k.Predict meas
    (r.1, [Call.Predict k, r.2])

/-- `FusionEKF::ProcessMeasurement`: the object after the call. -/
def FusionEKF.ProcessMeasurement (env : Env α) (s : FusionEKF α)
    (meas : MeasurementPackage α) : FusionEKF α :=
  (FusionEKF.ProcessMeasurementCalls env s meas).1

/-- The states of a `FusionEKF` object: constructed, then fed any finite
sequence of measurements. -/
inductive FusionEKF.Reachable (env : Env α) : FusionEKF α → Prop where
  | construct (Hj_alloc : Matrix (Fin 3) (Fin 4) α) :
      FusionEKF.Reachable env (FusionEKF.construct Hj_alloc)
  | step {s : FusionEKF α} (meas : MeasurementPackage α) :
      FusionEKF.Reachable env s →
      FusionEKF.Reachable env (FusionEKF.ProcessMeasurement env s meas)

/-- What every reachable object satisfies: the constants are those of the
constructor, and `F_` is `F_init` up to the two entries `(0,2)`, `(1,3)`. -/
def FusionEKF.Invariant (s : FusionEKF α) : Prop :=
  s.noise_ax = 9 ∧ s.noise_ay = 9 ∧
  s.R_laser_ = FusionEKF.R_laser_init ∧ s.R_radar_ = FusionEKF.R_radar_init ∧
  s.H_laser_ = FusionEKF.H_laser_init ∧
  ∃ a b : α, s.ekf_.F_ = !![1, 0, a, 0;
                            0, 1, 0, b;
                            0, 0, 1, 0;
                            0, 0, 0, 1]

/-- Modelled from the spec: the `DegenerateState` condition of the Jacobian
computation (tools.cpp is not under src/): "if `px² + py²` is below a small
fixed threshold", the threshold being a parameter. -/
def Tools.DegenerateState (threshold : α) (x : Fin 4 → α) : Prop :=
  x 0 ^ 2 + x 1 ^ 2 < threshold

/-- Modelled from the spec: `Tools::CalculateJacobian` as section 4.2 describes
it (tools.cpp is not under src/): "if `px² + py²` is below a small fixed
threshold ..., the operation fails with a `DegenerateState` condition rather
than returning a matrix".  The threshold is a parameter; the matrix returned
otherwise is `env.CalculateJacobian x`. -/
def Tools.CalculateJacobian (env : Env α) (threshold : α) (x : Fin 4 → α) :
    Except Tools.Error (Matrix (Fin 3) (Fin 4) α) :=
  if x 0 ^ 2 + x 1 ^ 2 < threshold then Except.error Tools.Error.DegenerateState
  else Except.ok (env.CalculateJacobian x)

/-- Lines 164-176 with the Jacobian of section 4.2, applied to the predicted
filter `p` (which `Predict` has already written into `ekf_`).  When
`CalculateJacobian` fails rather than returning a matrix, the statement
`Hj_ << tools.CalculateJacobian(ekf_.x_)` of line 167 has nothing to stream,
and `FusionEKF.cpp` has neither a test nor a handler there, so the failure ends
`ProcessMeasurement` at that line: `Hj_`, `ekf_.H_` and `ekf_.R_` are not
assigned and `UpdateEKF` is not called.  When it returns, the lines are those
of `dispatch`. -/
def FusionEKF.dispatchExcept (env : Env α) (threshold : α) (s : FusionEKF α)
    (p : KalmanFilter α) : (meas : MeasurementPackage α) → Outcome α
  | ⟨_, SensorType.RADAR, raw⟩ =>
      match Tools.CalculateJacobian env threshold p.x_ with
      | Except.error e => ⟨{ s with ekf_ := p }, [], some e⟩
      | Except.ok Hj =>
          let k : KalmanFilter α := { p with m := 3, H_ := Hj, R_ := s.R_radar_ }
          ⟨{ s with Hj_ := Hj, ekf_ := KalmanFilter.UpdateEKF env k raw },
            [Call.UpdateEKF k raw], none⟩
  | ⟨_, SensorType.LASER, raw⟩ =>
      let k : KalmanFilter α := { p with m := 2, H_ := s.H_laser_, R_ := s.R_laser_ }
      ⟨{ s with ekf_ := KalmanFilter.Update k raw }, [Call.Update k raw], none⟩

/-- `FusionEKF::ProcessMeasurement` with the Jacobian of section 4.2: the
first-measurement branch (lines 83-120) makes no use of the Jacobian and is
that of `ProcessMeasurementCalls`; the Tracking branch is lines 133-176 with
`dispatchExcept`. -/
def FusionEKF.ProcessMeasurementExcept (env : Env α) (threshold : α) (s : FusionEKF α)
    (meas : MeasurementPackage α) : Outcome α :=
  if !s.is_initialized_ then
    let r := FusionEKF.ProcessMeasurementCalls env s meas
    ⟨r.1, r.2, none⟩
  else
    let dt := FusionEKF.elapsed s meas
    let s1 := { s with previous_timestamp_ := meas.timestamp_ }
    let k := FusionEKF.refresh s1 dt
    let r := FusionEKF.dispatchExcept env threshold s1 k.Predict meas
    ⟨r.state, Call.Predict k :: r.calls, r.failure⟩

/-- The matrix `G` of the constant-acceleration discretisation. -/
def FusionEKF.G (dt : α) : Matrix (Fin 4) (Fin 2) α :=
  !![dt ^ 2 / 2, 0;
     0, dt ^ 2 / 2;
     dt, 0;
     0, dt]

/-- Symmetric and positive semi-definite: `Mᵀ = M` and `vᵀ M v ≥ 0` for every
vector `v`. -/
def PosSemidefinite {n : Nat} (M : Matrix (Fin n) (Fin n) α) : Prop :=
  M.transpose = M ∧ ∀ v : Fin n → α, 0 ≤ Matrix.dotProduct v (M.mulVec v)

/-- Symmetric and positive definite: `Mᵀ = M` and `vᵀ M v > 0` for every
non-zero vector `v`. -/
def PosDefinite {n : Nat} (M : Matrix (Fin n) (Fin n) α) : Prop :=
  M.transpose = M ∧ ∀ v : Fin n → α, v ≠ 0 → 0 < Matrix.dotProduct v (M.mulVec v)


end Model

/-! ## Concrete data on which the statements are evaluated -/

/-- An environment over the rationals: second-order `cos`, first-order `sin`,
a constant Jacobian, the projection on `(px, py, vx)` as measurement function
and no bearing normalisation. -/
def envQ : Env ℚ :=
  { cos := fun t => 1 - t ^ 2 / 2
    sin := fun t => t
    CalculateJacobian := fun _ => !![1, 0, 0, 0; 0, 1, 0, 0; 0, 0, 1, 0]
    h := fun x => ![x 0, x 1, x 2]
    normalize := fun a => a }

/-- A laser sample `(x, y)` at time `t`. -/
def laserQ (t : Int) (x y : ℚ) : MeasurementPackage ℚ :=
  { timestamp_ := t, sensor_type_ := SensorType.LASER, raw_measurements_ := ![x, y] }

/-- A radar sample `(range, bearing, range-rate)` at time `t`. -/
def radarQ (t : Int) (r theta rdot : ℚ) : MeasurementPackage ℚ :=
  { timestamp_ := t, sensor_type_ := SensorType.RADAR, raw_measurements_ := ![r, theta, rdot] }

/-- A freshly constructed object. -/
def fresh : FusionEKF ℚ := FusionEKF.construct 0

/-- The object after the first laser sample `(1, 1)` at time `0`. -/
def tracking : FusionEKF ℚ := FusionEKF.ProcessMeasurement envQ fresh (laserQ 0 1 1)

/-- The object after a second laser sample, one second later, placed so that
the state predicted one further second ahead is the origin. -/
def tracking2 : FusionEKF ℚ :=
  FusionEKF.ProcessMeasurement envQ tracking (laserQ 1000000 (401791 / 803100) (401791 / 803100))

section Narrowing

variable {α : Type} [LinearOrderedField α] [FloorRing α]

/-! ## Evaluation of the narrowing to `float` -/

theorem roundHalfEven_of_lt (r : α) (n : Int) (h1 : (n : α) ≤ r) (h2 : r - n < 1 / 2) :
    roundHalfEven r = n := by
  have hf : ⌊r⌋ = n := by
    rw [Int.floor_eq_iff]
    constructor
    · exact h1
    · linarith
  unfold roundHalfEven
  simp only [hf]
  rw [if_pos h2]

theorem roundHalfEven_intCast (n : Int) : roundHalfEven (n : α) = n :=
  roundHalfEven_of_lt _ n le_rfl (by simp)

theorem roundHalfEven_tie_even (r : α) (n : Int) (h : r = n + 1 / 2) (hn : n % 2 = 0) :
    roundHalfEven r = n := by
  have hf : ⌊r⌋ = n := by
    rw [Int.floor_eq_iff]
    constructor <;> rw [h] <;> linarith
  unfold roundHalfEven
  simp only [hf]
  have e : r - n = 1 / 2 := by rw [h]; ring
  rw [e, if_neg (lt_irrefl _), if_neg (lt_irrefl _), if_pos hn]

theorem log_two_eq (r : α) (e : Int) (hr : 0 < r) (h1 : (2 : α) ^ e ≤ r) (h2 : r < (2 : α) ^ (e + 1)) :
    Int.log 2 r = e := by
  have a : e ≤ Int.log 2 r := by
    rw [← Int.zpow_le_iff_le_log (by norm_num) hr]
    simpa using h1
  have b : Int.log 2 r < e + 1 := by
    rw [← Int.lt_zpow_iff_log_lt (by norm_num) hr]
    simpa using h2
  omega

theorem float32_eval (x : α) (e n : Int) (hx : 0 < x) (he : -126 ≤ e)
    (h1 : (2 : α) ^ e ≤ x) (h2 : x < (2 : α) ^ (e + 1))
    (hn : roundHalfEven (x / 2 ^ (e - 23)) = n) :
    float32 x = n * 2 ^ (e - 23) := by
  unfold float32
  rw [if_neg (ne_of_gt hx)]
  simp only [abs_of_pos hx, log_two_eq x e hx h1 h2, max_eq_left he, hn]

theorem float32_eval_neg (x : α) (e n : Int) (hx : x < 0) (he : -126 ≤ e)
    (h1 : (2 : α) ^ e ≤ -x) (h2 : -x < (2 : α) ^ (e + 1))
    (hn : roundHalfEven (x / 2 ^ (e - 23)) = n) :
    float32 x = n * 2 ^ (e - 23) := by
  unfold float32
  rw [if_neg (ne_of_lt hx)]
  simp only [abs_of_neg hx, log_two_eq (-x) e (neg_pos.mpr hx) h1 h2, max_eq_left he, hn]

theorem float32_zero : float32 (0 : α) = 0 := by
  simp [float32]

theorem float32_one : float32 (1 : α) = 1 := by
  rw [float32_eval 1 0 8388608 (by norm_num) (by norm_num) (by norm_num) (by norm_num)
    (by
      have : (1 : α) / 2 ^ ((0 : Int) - 23) = ((8388608 : Int) : α) := by norm_num
      rw [this, roundHalfEven_intCast])]
  norm_num

theorem float32_two : float32 (2 : α) = 2 := by
  rw [float32_eval 2 1 8388608 (by norm_num) (by norm_num) (by norm_num) (by norm_num)
    (by
      have : (2 : α) / 2 ^ ((1 : Int) - 23) = ((8388608 : Int) : α) := by norm_num
      rw [this, roundHalfEven_intCast])]
  norm_num

theorem float32_three : float32 (3 : α) = 3 := by
  rw [float32_eval 3 1 12582912 (by norm_num) (by norm_num) (by norm_num) (by norm_num)
    (by
      have : (3 : α) / 2 ^ ((1 : Int) - 23) = ((12582912 : Int) : α) := by norm_num
      rw [this, roundHalfEven_intCast])]
  norm_num

theorem float32_five : float32 (5 : α) = 5 := by
  rw [float32_eval 5 2 10485760 (by norm_num) (by norm_num) (by norm_num) (by norm_num)
    (by
      have : (5 : α) / 2 ^ ((2 : Int) - 23) = ((10485760 : Int) : α) := by norm_num
      rw [this, roundHalfEven_intCast])]
  norm_num

theorem float32_neg_five : float32 (-5 : α) = -5 := by
  rw [float32_eval_neg (-5) 2 (-10485760) (by norm_num) (by norm_num) (by norm_num) (by norm_num)
    (by
      have : (-5 : α) / 2 ^ ((2 : Int) - 23) = ((-10485760 : Int) : α) := by norm_num
      rw [this, roundHalfEven_intCast])]
  norm_num

theorem float32_16777216 : float32 (16777216 : α) = 16777216 := by
  rw [float32_eval 16777216 24 8388608 (by norm_num) (by norm_num) (by norm_num) (by norm_num)
    (by
      have : (16777216 : α) / 2 ^ ((24 : Int) - 23) = ((8388608 : Int) : α) := by norm_num
      rw [this, roundHalfEven_intCast])]
  norm_num

theorem float32_16777217 : float32 (16777217 : α) = 16777216 := by
  rw [float32_eval 16777217 24 8388608 (by norm_num) (by norm_num) (by norm_num) (by norm_num)
    (roundHalfEven_tie_even _ _ (by norm_num) (by norm_num))]
  norm_num

theorem float32_tenthousandth : float32 (0.0001 : α) = 13743895 / 137438953472 := by
  rw [float32_eval 0.0001 (-14) 13743895 (by norm_num) (by norm_num) (by norm_num) (by norm_num)
    (roundHalfEven_of_lt _ _ (by norm_num) (by norm_num))]
  norm_num

theorem FusionEKF.initialPosition_laser (env : Env α) (t : Int) (z : Fin 2 → α) :
    FusionEKF.initialPosition env ⟨t, SensorType.LASER, z⟩ = (float32 (z 0), float32 (z 1)) :=
  rfl

theorem FusionEKF.initialPosition_radar (env : Env α) (t : Int) (z : Fin 3 → α) :
    FusionEKF.initialPosition env ⟨t, SensorType.RADAR, z⟩ =
      (float32 (float32 (z 0) * env.cos (float32 (z 1))),
       float32 (float32 (z 0) * env.sin (float32 (z 1)))) :=
  rfl

theorem initialPosition_laserQ (env : Env ℚ) (t : Int) (x y : ℚ) :
    FusionEKF.initialPosition env (laserQ t x y) = (float32 x, float32 y) :=
  rfl

theorem initialPosition_laserQ_one (env : Env ℚ) (t : Int) :
    FusionEKF.initialPosition env (laserQ t 1 1) = (1, 1) := by
  rw [initialPosition_laserQ, float32_one]

theorem initialPosition_laserQ_zero (env : Env ℚ) (t : Int) :
    FusionEKF.initialPosition env (laserQ t 0 0) = (0, 0) := by
  rw [initialPosition_laserQ, float32_zero]

theorem initialPosition_laserQ_neg_five (env : Env ℚ) (t : Int) :
    FusionEKF.initialPosition env (laserQ t (-5) (-5)) = (-5, -5) := by
  rw [initialPosition_laserQ, float32_neg_five]

end Narrowing

section Lemmas

variable {α : Type} [LinearOrderedField α]

/-! ## Frame lemmas for the `KalmanFilter` operations, the dispatch and the refresh -/

theorem KalmanFilter.Predict_F (k : KalmanFilter α) : k.Predict.F_ = k.F_ := rfl

theorem KalmanFilter.Predict_Q (k : KalmanFilter α) : k.Predict.Q_ = k.Q_ := rfl

theorem KalmanFilter.Update_F (k : KalmanFilter α) (z : Fin k.m → α) :
    (k.Update z).F_ = k.F_ := rfl

theorem KalmanFilter.Update_Q (k : KalmanFilter α) (z : Fin k.m → α) :
    (k.Update z).Q_ = k.Q_ := rfl

theorem KalmanFilter.UpdateEKF_F (env : Env α) (k : KalmanFilter α) (z : Fin k.m → α) :
    (KalmanFilter.UpdateEKF env k z).F_ = k.F_ := by
  unfold KalmanFilter.UpdateEKF
  split <;> rfl

theorem KalmanFilter.UpdateEKF_Q (env : Env α) (k : KalmanFilter α) (z : Fin k.m → α) :
    (KalmanFilter.UpdateEKF env k z).Q_ = k.Q_ := by
  unfold KalmanFilter.UpdateEKF
  split <;> rfl

theorem FusionEKF.dispatch_F (env : Env α) (s : FusionEKF α) (p : KalmanFilter α)
    (meas : MeasurementPackage α) : (FusionEKF.dispatch env s p meas).1.ekf_.F_ = p.F_ := by
  rcases meas with ⟨t, st, raw⟩
  cases st
  · rfl
  · simp only [FusionEKF.dispatch]
    rw [KalmanFilter.UpdateEKF_F]

theorem FusionEKF.dispatch_Q (env : Env α) (s : FusionEKF α) (p : KalmanFilter α)
    (meas : MeasurementPackage α) : (FusionEKF.dispatch env s p meas).1.ekf_.Q_ = p.Q_ := by
  rcases meas with ⟨t, st, raw⟩
  cases st
  · rfl
  · simp only [FusionEKF.dispatch]
    rw [KalmanFilter.UpdateEKF_Q]

theorem FusionEKF.refresh_of_gt (s : FusionEKF α) (dt : α) (h : dt > 0.0001) :
    FusionEKF.refresh s dt =
      { s.ekf_ with
        F_ := setCoeff (setCoeff s.ekf_.F_ 0 2 dt) 1 3 dt
        Q_ := !![dt * dt * dt * dt / 4 * s.noise_ax, 0, dt * dt * dt / 2 * s.noise_ax, 0;
                 0, dt * dt * dt * dt / 4 * s.noise_ay, 0, dt * dt * dt / 2 * s.noise_ay;
                 dt * dt * dt / 2 * s.noise_ax, 0, dt * dt * s.noise_ax, 0;
                 0, dt * dt * dt / 2 * s.noise_ay, 0, dt * dt * s.noise_ay] } := by
  simp [FusionEKF.refresh, h]

theorem FusionEKF.refresh_of_le (s : FusionEKF α) (dt : α) (h : dt ≤ 0.0001) :
    FusionEKF.refresh s dt = s.ekf_ := by
  simp [FusionEKF.refresh, not_lt.mpr h]

variable [FloorRing α]

/-! ## Unfolding `ProcessMeasurement` -/

theorem FusionEKF.calls_tracking (env : Env α) (s : FusionEKF α)
    (meas : MeasurementPackage α) (hi : s.is_initialized_ = true) :
    FusionEKF.ProcessMeasurementCalls env s meas =
      ((FusionEKF.dispatch env { s with previous_timestamp_ := meas.timestamp_ }
          (FusionEKF.refresh { s with previous_timestamp_ := meas.timestamp_ }
            (FusionEKF.elapsed s meas)).Predict meas).1,
       [Call.Predict (FusionEKF.refresh { s with previous_timestamp_ := meas.timestamp_ }
            (FusionEKF.elapsed s meas)),
        (FusionEKF.dispatch env { s with previous_timestamp_ := meas.timestamp_ }
          (FusionEKF.refresh { s with previous_timestamp_ := meas.timestamp_ }
            (FusionEKF.elapsed s meas)).Predict meas).2]) := by
  simp [FusionEKF.ProcessMeasurementCalls, hi]

theorem FusionEKF.calls_rejected (env : Env α) (s : FusionEKF α)
    (meas : MeasurementPackage α) (hi : s.is_initialized_ = false)
    (hx : (FusionEKF.initialPosition env meas).1 < 0.0001)
    (hy : (FusionEKF.initialPosition env meas).2 < 0.0001) :
    FusionEKF.ProcessMeasurementCalls env s meas = (s, []) := by
  simp [FusionEKF.ProcessMeasurementCalls, hi, hx, hy]

theorem FusionEKF.calls_accepted (env : Env α) (s : FusionEKF α)
    (meas : MeasurementPackage α) (hi : s.is_initialized_ = false)
    (h : ¬ ((FusionEKF.initialPosition env meas).1 < 0.0001 ∧
            (FusionEKF.initialPosition env meas).2 < 0.0001)) :
    FusionEKF.ProcessMeasurementCalls env s meas =
      ({ s with
          ekf_ := { s.ekf_ with
            x_ := ![(FusionEKF.initialPosition env meas).1,
                    (FusionEKF.initialPosition env meas).2, 0, 0] }
          previous_timestamp_ := meas.timestamp_
          is_initialized_ := true }, []) := by
  simp only [FusionEKF.ProcessMeasurementCalls, hi]
  simp [h]

theorem FusionEKF.first_rejected (env : Env α) (s : FusionEKF α)
    (meas : MeasurementPackage α) (hi : s.is_initialized_ = false)
    (hx : (FusionEKF.initialPosition env meas).1 < 0.0001)
    (hy : (FusionEKF.initialPosition env meas).2 < 0.0001) :
    FusionEKF.ProcessMeasurement env s meas = s := by
  unfold FusionEKF.ProcessMeasurement
  rw [FusionEKF.calls_rejected env s meas hi hx hy]

theorem FusionEKF.first_accepted (env : Env α) (s : FusionEKF α) (meas : MeasurementPackage α)
    (a b : α) (hi : s.is_initialized_ = false)
    (hp : FusionEKF.initialPosition env meas = (a, b))
    (hacc : ¬ (a < 0.0001 ∧ b < 0.0001)) :
    FusionEKF.ProcessMeasurement env s meas =
      { s with
        ekf_ := { s.ekf_ with x_ := ![a, b, 0, 0] }
        previous_timestamp_ := meas.timestamp_
        is_initialized_ := true } := by
  unfold FusionEKF.ProcessMeasurement
  rw [FusionEKF.calls_accepted env s meas hi (by rw [hp]; exact hacc), hp]

end Lemmas

section Reachability

variable {α : Type} [LinearOrderedField α]

theorem FusionEKF.invariant_construct (Hj_alloc : Matrix (Fin 3) (Fin 4) α) :
    FusionEKF.Invariant (FusionEKF.construct Hj_alloc) :=
  ⟨rfl, rfl, rfl, rfl, rfl, 1, 1, rfl⟩

theorem setCoeff_F (a b dt : α) :
    setCoeff (setCoeff (!![1, 0, a, 0; 0, 1, 0, b; 0, 0, 1, 0; 0, 0, 0, 1] :
      Matrix (Fin 4) (Fin 4) α) 0 2 dt) 1 3 dt =
      !![1, 0, dt, 0; 0, 1, 0, dt; 0, 0, 1, 0; 0, 0, 0, 1] := by
  ext i j
  fin_cases i <;> fin_cases j <;> simp [setCoeff]

theorem FusionEKF.dispatch_frame (env : Env α) (s : FusionEKF α) (p : KalmanFilter α)
    (meas : MeasurementPackage α) :
    (FusionEKF.dispatch env s p meas).1.noise_ax = s.noise_ax ∧
    (FusionEKF.dispatch env s p meas).1.noise_ay = s.noise_ay ∧
    (FusionEKF.dispatch env s p meas).1.R_laser_ = s.R_laser_ ∧
    (FusionEKF.dispatch env s p meas).1.R_radar_ = s.R_radar_ ∧
    (FusionEKF.dispatch env s p meas).1.H_laser_ = s.H_laser_ ∧
    (FusionEKF.dispatch env s p meas).1.is_initialized_ = s.is_initialized_ ∧
    (FusionEKF.dispatch env s p meas).1.previous_timestamp_ = s.previous_timestamp_ := by
  rcases meas with ⟨t, st, raw⟩
  cases st <;> exact ⟨rfl, rfl, rfl, rfl, rfl, rfl, rfl⟩

theorem FusionEKF.refresh_F_shape (s : FusionEKF α) (dt : α)
    (h : ∃ a b : α, s.ekf_.F_ = !![1, 0, a, 0; 0, 1, 0, b; 0, 0, 1, 0; 0, 0, 0, 1]) :
    ∃ a b : α, (FusionEKF.refresh s dt).F_ =
      !![1, 0, a, 0; 0, 1, 0, b; 0, 0, 1, 0; 0, 0, 0, 1] := by
  obtain ⟨a, b, hab⟩ := h
  by_cases hdt : dt > 0.0001
  · refine ⟨dt, dt, ?_⟩
    rw [FusionEKF.refresh_of_gt s dt hdt]
    show setCoeff (setCoeff s.ekf_.F_ 0 2 dt) 1 3 dt = _
    rw [hab, setCoeff_F]
  · refine ⟨a, b, ?_⟩
    rw [FusionEKF.refresh_of_le s dt (not_lt.mp hdt)]
    exact hab

theorem Q_discretisation (dt a b : α) :
    (!![dt * dt * dt * dt / 4 * a, 0, dt * dt * dt / 2 * a, 0;
        0, dt * dt * dt * dt / 4 * b, 0, dt * dt * dt / 2 * b;
        dt * dt * dt / 2 * a, 0, dt * dt * a, 0;
        0, dt * dt * dt / 2 * b, 0, dt * dt * b] : Matrix (Fin 4) (Fin 4) α) =
      FusionEKF.G dt * Matrix.diagonal ![a, b] * (FusionEKF.G dt).transpose := by
  ext i j
  simp only [Matrix.mul_apply, Fin.sum_univ_two, Matrix.diagonal_apply, Matrix.transpose_apply,
    FusionEKF.G]
  fin_cases i <;> fin_cases j <;> simp <;> ring

theorem Q_entries (dt : α) :
    (!![dt * dt * dt * dt / 4 * 9, 0, dt * dt * dt / 2 * 9, 0;
        0, dt * dt * dt * dt / 4 * 9, 0, dt * dt * dt / 2 * 9;
        dt * dt * dt / 2 * 9, 0, dt * dt * 9, 0;
        0, dt * dt * dt / 2 * 9, 0, dt * dt * 9] : Matrix (Fin 4) (Fin 4) α) =
      !![dt ^ 4 / 4 * 9, 0, dt ^ 3 / 2 * 9, 0;
         0, dt ^ 4 / 4 * 9, 0, dt ^ 3 / 2 * 9;
         dt ^ 3 / 2 * 9, 0, dt ^ 2 * 9, 0;
         0, dt ^ 3 / 2 * 9, 0, dt ^ 2 * 9] := by
  have h2 : dt * dt = dt ^ 2 := by ring
  have h3 : dt * dt * dt = dt ^ 3 := by ring
  have h4 : dt * dt * dt * dt = dt ^ 4 := by ring
  rw [h4, h3, h2]

variable [FloorRing α]

theorem FusionEKF.invariant_step (env : Env α) (s : FusionEKF α)
    (meas : MeasurementPackage α) (h : FusionEKF.Invariant s) :
    FusionEKF.Invariant (FusionEKF.ProcessMeasurement env s meas) := by
  obtain ⟨h1, h2, h3, h4, h5, h6⟩ := h
  unfold FusionEKF.ProcessMeasurement
  cases hi : s.is_initialized_
  · by_cases hg : (FusionEKF.initialPosition env meas).1 < 0.0001 ∧
        (FusionEKF.initialPosition env meas).2 < 0.0001
    · rw [FusionEKF.calls_rejected env s meas hi hg.1 hg.2]
      exact ⟨h1, h2, h3, h4, h5, h6⟩
    · rw [FusionEKF.calls_accepted env s meas hi hg]
      exact ⟨h1, h2, h3, h4, h5, h6⟩
  · rw [FusionEKF.calls_tracking env s meas hi]
    obtain ⟨f1, f2, f3, f4, f5, -, -⟩ := FusionEKF.dispatch_frame env
      { s with previous_timestamp_ := meas.timestamp_ }
      (FusionEKF.refresh { s with previous_timestamp_ := meas.timestamp_ }
        (FusionEKF.elapsed s meas)).Predict meas
    refine ⟨f1.trans h1, f2.trans h2, f3.trans h3, f4.trans h4, f5.trans h5, ?_⟩
    show ∃ a b : α, (FusionEKF.dispatch env _ _ meas).1.ekf_.F_ = _
    rw [FusionEKF.dispatch_F, KalmanFilter.Predict_F]
    exact FusionEKF.refresh_F_shape _ _ h6

theorem FusionEKF.invariant_of_reachable (env : Env α) (s : FusionEKF α)
    (h : FusionEKF.Reachable env s) : FusionEKF.Invariant s := by
  induction h with
  | construct Hj_alloc => exact FusionEKF.invariant_construct Hj_alloc
  | step meas _ ih => exact FusionEKF.invariant_step env _ meas ih

end Reachability

/-! ## Evaluation of the concrete data -/

theorem tracking_eq :
    tracking =
      { fresh with
        ekf_ := { fresh.ekf_ with x_ := ![1, 1, 0, 0] }
        previous_timestamp_ := 0
        is_initialized_ := true } := by
  unfold tracking FusionEKF.ProcessMeasurement
  rw [FusionEKF.calls_accepted envQ fresh (laserQ 0 1 1) rfl
    (by rw [initialPosition_laserQ_one]; norm_num), initialPosition_laserQ_one]
  rfl

/-- The first laser sample `(0.0001, 0.0001)`: narrowed to `float` both
coordinates are `13743895 / 2^37 < 0.0001`, so line 113 rejects the sample. -/
theorem first_laser_at_threshold_rejected :
    float32 (0.0001 : ℚ) = 13743895 / 137438953472 ∧
    float32 (0.0001 : ℚ) < 0.0001 ∧
    FusionEKF.ProcessMeasurement envQ fresh (laserQ 0 0.0001 0.0001) = fresh := by
  have h : float32 (0.0001 : ℚ) < 0.0001 := by
    rw [float32_tenthousandth]
    norm_num
  have hx : (FusionEKF.initialPosition envQ (laserQ 0 0.0001 0.0001)).1 < 0.0001 := by
    rw [initialPosition_laserQ]
    exact h
  have hy : (FusionEKF.initialPosition envQ (laserQ 0 0.0001 0.0001)).2 < 0.0001 := by
    rw [initialPosition_laserQ]
    exact h
  exact ⟨float32_tenthousandth, h,
    FusionEKF.first_rejected envQ fresh (laserQ 0 0.0001 0.0001) rfl hx hy⟩

theorem tracking_reachable : FusionEKF.Reachable envQ tracking :=
  FusionEKF.Reachable.step _ (FusionEKF.Reachable.construct 0)

theorem tracking_initialized : tracking.is_initialized_ = true := by
  rw [tracking_eq]

theorem tracking_elapsed (t : Int) (x y : ℚ) :
    FusionEKF.elapsed tracking (laserQ t x y) = (t : ℚ) / 1000000 := by
  rw [tracking_eq]
  simp [FusionEKF.elapsed, laserQ]

theorem tracking_refresh_one :
    FusionEKF.refresh { tracking with previous_timestamp_ := 1000000 } 1 =
      { x_ := ![1, 1, 0, 0]
        P_ := FusionEKF.P_init
        F_ := !![1, 0, 1, 0; 0, 1, 0, 1; 0, 0, 1, 0; 0, 0, 0, 1]
        Q_ := !![9 / 4, 0, 9 / 2, 0; 0, 9 / 4, 0, 9 / 2; 9 / 2, 0, 9, 0; 0, 9 / 2, 0, 9]
        m := 2
        H_ := FusionEKF.H_laser_init
        R_ := FusionEKF.R_laser_init } := by
  rw [FusionEKF.refresh_of_gt _ _ (by norm_num), tracking_eq]
  simp only [fresh, FusionEKF.construct, KalmanFilter.Init, FusionEKF.F_init, setCoeff_F]
  norm_num

theorem predict_eval_one (m : Nat) (H : Matrix (Fin m) (Fin 4) ℚ) (R : Matrix (Fin m) (Fin m) ℚ) :
    KalmanFilter.Predict
      { x_ := ![1, 1, 0, 0]
        P_ := FusionEKF.P_init
        F_ := !![1, 0, 1, 0; 0, 1, 0, 1; 0, 0, 1, 0; 0, 0, 0, 1]
        Q_ := !![9 / 4, 0, 9 / 2, 0; 0, 9 / 4, 0, 9 / 2; 9 / 2, 0, 9, 0; 0, 9 / 2, 0, 9]
        m := m
        H_ := H
        R_ := R } =
      { x_ := ![1, 1, 0, 0]
        P_ := !![4013 / 4, 0, 2009 / 2, 0; 0, 4013 / 4, 0, 2009 / 2;
                 2009 / 2, 0, 1009, 0; 0, 2009 / 2, 0, 1009]
        F_ := !![1, 0, 1, 0; 0, 1, 0, 1; 0, 0, 1, 0; 0, 0, 0, 1]
        Q_ := !![9 / 4, 0, 9 / 2, 0; 0, 9 / 4, 0, 9 / 2; 9 / 2, 0, 9, 0; 0, 9 / 2, 0, 9]
        m := m
        H_ := H
        R_ := R } := by
  have hx : (!![1, 0, 1, 0; 0, 1, 0, 1; 0, 0, 1, 0; 0, 0, 0, 1] :
      Matrix (Fin 4) (Fin 4) ℚ).mulVec ![1, 1, 0, 0] = ![1, 1, 0, 0] := by
    ext i
    simp only [Matrix.mulVec, Matrix.dotProduct, Fin.sum_univ_four]
    fin_cases i <;>
      simp only [Fin.zero_eta, Fin.mk_one, Fin.reduceFinMk, Matrix.of_apply, Matrix.cons_val_zero,
        Matrix.cons_val_one, Matrix.cons_val_two, Matrix.cons_val_three, Matrix.head_cons,
        Matrix.tail_cons, Matrix.cons_val', Matrix.cons_val_fin_one, Matrix.empty_val'] <;>
      norm_num
  have hP : (!![1, 0, 1, 0; 0, 1, 0, 1; 0, 0, 1, 0; 0, 0, 0, 1] : Matrix (Fin 4) (Fin 4) ℚ) *
      FusionEKF.P_init *
      (!![1, 0, 1, 0; 0, 1, 0, 1; 0, 0, 1, 0; 0, 0, 0, 1] : Matrix (Fin 4) (Fin 4) ℚ).transpose +
      !![9 / 4, 0, 9 / 2, 0; 0, 9 / 4, 0, 9 / 2; 9 / 2, 0, 9, 0; 0, 9 / 2, 0, 9] =
      !![4013 / 4, 0, 2009 / 2, 0; 0, 4013 / 4, 0, 2009 / 2;
         2009 / 2, 0, 1009, 0; 0, 2009 / 2, 0, 1009] := by
    ext i j
    simp only [Matrix.add_apply, Matrix.mul_apply, Matrix.transpose_apply, Fin.sum_univ_four,
      FusionEKF.P_init]
    fin_cases i <;> fin_cases j <;>
      simp only [Fin.zero_eta, Fin.mk_one, Fin.reduceFinMk, Matrix.of_apply, Matrix.cons_val_zero,
        Matrix.cons_val_one, Matrix.cons_val_two, Matrix.cons_val_three, Matrix.head_cons,
        Matrix.tail_cons, Matrix.cons_val', Matrix.cons_val_fin_one, Matrix.empty_val'] <;>
      norm_num
  simp only [KalmanFilter.Predict, hx, hP]

theorem one_fin_four {α : Type} [LinearOrderedField α] : (1 : Matrix (Fin 4) (Fin 4) α) =
    !![1, 0, 0, 0; 0, 1, 0, 0; 0, 0, 1, 0; 0, 0, 0, 1] := by
  ext i j
  fin_cases i <;> fin_cases j <;> rfl

theorem update_eval_two (F Q : Matrix (Fin 4) (Fin 4) ℚ) :
    KalmanFilter.Update
      { x_ := ![1, 1, 0, 0]
        P_ := !![4013 / 4, 0, 2009 / 2, 0; 0, 4013 / 4, 0, 2009 / 2;
                 2009 / 2, 0, 1009, 0; 0, 2009 / 2, 0, 1009]
        F_ := F
        Q_ := Q
        m := 2
        H_ := FusionEKF.H_laser_init
        R_ := FusionEKF.R_laser_init } ![401791 / 803100, 401791 / 803100] =
      { x_ := ![4018 / 8031, 4018 / 8031, -4018 / 8031, -4018 / 8031]
        P_ := !![36117 / 1605236, 0, 18081 / 802618, 0; 0, 36117 / 1605236, 0, 18081 / 802618;
                 18081 / 802618, 0, 1312681 / 401309, 0; 0, 18081 / 802618, 0, 1312681 / 401309]
        F_ := F
        Q_ := Q
        m := 2
        H_ := FusionEKF.H_laser_init
        R_ := FusionEKF.R_laser_init } := by
  have hS : (FusionEKF.H_laser_init : Matrix (Fin 2) (Fin 4) ℚ) *
      (!![4013 / 4, 0, 2009 / 2, 0; 0, 4013 / 4, 0, 2009 / 2;
         2009 / 2, 0, 1009, 0; 0, 2009 / 2, 0, 1009] : Matrix (Fin 4) (Fin 4) ℚ) *
      (FusionEKF.H_laser_init : Matrix (Fin 2) (Fin 4) ℚ).transpose + FusionEKF.R_laser_init =
      (!![401309 / 400, 0; 0, 401309 / 400] : Matrix (Fin 2) (Fin 2) ℚ) := by
    ext i j
    simp only [Matrix.add_apply, Matrix.mul_apply, Matrix.transpose_apply, Fin.sum_univ_four,
      FusionEKF.H_laser_init, FusionEKF.R_laser_init]
    fin_cases i <;> fin_cases j <;>
      simp only [Fin.zero_eta, Fin.mk_one, Fin.reduceFinMk, Matrix.of_apply, Matrix.cons_val_zero,
        Matrix.cons_val_one, Matrix.cons_val_two, Matrix.cons_val_three, Matrix.head_cons,
        Matrix.tail_cons, Matrix.cons_val', Matrix.cons_val_fin_one, Matrix.empty_val'] <;>
      norm_num
  have hI : KalmanFilter.inverse (!![401309 / 400, 0; 0, 401309 / 400] : Matrix (Fin 2) (Fin 2) ℚ) =
      !![400 / 401309, 0; 0, 400 / 401309] := by
    ext i j
    simp only [KalmanFilter.inverse, Matrix.smul_apply, Matrix.det_fin_two_of,
      Matrix.adjugate_fin_two_of]
    fin_cases i <;> fin_cases j <;>
      simp only [Fin.zero_eta, Fin.mk_one, Fin.reduceFinMk, Matrix.of_apply, Matrix.cons_val_zero,
        Matrix.cons_val_one, Matrix.cons_val_two, Matrix.cons_val_three, Matrix.head_cons,
        Matrix.tail_cons, Matrix.cons_val', Matrix.cons_val_fin_one, Matrix.empty_val'] <;>
      norm_num
  have hK : (!![4013 / 4, 0, 2009 / 2, 0; 0, 4013 / 4, 0, 2009 / 2;
         2009 / 2, 0, 1009, 0; 0, 2009 / 2, 0, 1009] : Matrix (Fin 4) (Fin 4) ℚ) *
      (FusionEKF.H_laser_init : Matrix (Fin 2) (Fin 4) ℚ).transpose *
      (!![400 / 401309, 0; 0, 400 / 401309] : Matrix (Fin 2) (Fin 2) ℚ) =
      (!![401300 / 401309, 0; 0, 401300 / 401309; 401800 / 401309, 0; 0, 401800 / 401309] :
        Matrix (Fin 4) (Fin 2) ℚ) := by
    ext i j
    simp only [Matrix.mul_apply, Matrix.transpose_apply, Fin.sum_univ_four, Fin.sum_univ_two,
      FusionEKF.H_laser_init]
    fin_cases i <;> fin_cases j <;>
      simp only [Fin.zero_eta, Fin.mk_one, Fin.reduceFinMk, Matrix.of_apply, Matrix.cons_val_zero,
        Matrix.cons_val_one, Matrix.cons_val_two, Matrix.cons_val_three, Matrix.head_cons,
        Matrix.tail_cons, Matrix.cons_val', Matrix.cons_val_fin_one, Matrix.empty_val'] <;>
      norm_num
  have hx : (![1, 1, 0, 0] : Fin 4 → ℚ) +
      (!![401300 / 401309, 0; 0, 401300 / 401309; 401800 / 401309, 0; 0, 401800 / 401309] :
        Matrix (Fin 4) (Fin 2) ℚ).mulVec
        ((![401791 / 803100, 401791 / 803100] : Fin 2 → ℚ) -
          (FusionEKF.H_laser_init : Matrix (Fin 2) (Fin 4) ℚ).mulVec ![1, 1, 0, 0]) =
      (![4018 / 8031, 4018 / 8031, -4018 / 8031, -4018 / 8031] : Fin 4 → ℚ) := by
    ext i
    simp only [Pi.add_apply, Pi.sub_apply, Matrix.mulVec, Matrix.dotProduct, Fin.sum_univ_four,
      Fin.sum_univ_two, FusionEKF.H_laser_init]
    fin_cases i <;>
      simp only [Fin.zero_eta, Fin.mk_one, Fin.reduceFinMk, Matrix.of_apply, Matrix.cons_val_zero,
        Matrix.cons_val_one, Matrix.cons_val_two, Matrix.cons_val_three, Matrix.head_cons,
        Matrix.tail_cons, Matrix.cons_val', Matrix.cons_val_fin_one, Matrix.empty_val'] <;>
      norm_num
  have hP : (1 - (!![401300 / 401309, 0; 0, 401300 / 401309; 401800 / 401309, 0;
        0, 401800 / 401309] : Matrix (Fin 4) (Fin 2) ℚ) *
        (FusionEKF.H_laser_init : Matrix (Fin 2) (Fin 4) ℚ)) *
      (!![4013 / 4, 0, 2009 / 2, 0; 0, 4013 / 4, 0, 2009 / 2;
         2009 / 2, 0, 1009, 0; 0, 2009 / 2, 0, 1009] : Matrix (Fin 4) (Fin 4) ℚ) =
      (!![36117 / 1605236, 0, 18081 / 802618, 0; 0, 36117 / 1605236, 0, 18081 / 802618;
         18081 / 802618, 0, 1312681 / 401309, 0; 0, 18081 / 802618, 0, 1312681 / 401309] :
        Matrix (Fin 4) (Fin 4) ℚ) := by
    rw [one_fin_four]
    ext i j
    simp only [Matrix.mul_apply, Matrix.sub_apply, Fin.sum_univ_four,
      Fin.sum_univ_two, FusionEKF.H_laser_init]
    fin_cases i <;> fin_cases j <;>
      simp only [Fin.zero_eta, Fin.mk_one, Fin.reduceFinMk, Matrix.of_apply, Matrix.cons_val_zero,
        Matrix.cons_val_one, Matrix.cons_val_two, Matrix.cons_val_three, Matrix.head_cons,
        Matrix.tail_cons, Matrix.cons_val', Matrix.cons_val_fin_one, Matrix.empty_val'] <;>
      norm_num
  simp only [KalmanFilter.Update, KalmanFilter.correct, hS, hI, hK, hx, hP]

theorem tracking2_eq :
    tracking2 =
      { is_initialized_ := true
        previous_timestamp_ := 1000000
        R_laser_ := FusionEKF.R_laser_init
        R_radar_ := FusionEKF.R_radar_init
        H_laser_ := FusionEKF.H_laser_init
        Hj_ := 0
        ekf_ :=
          { x_ := ![4018 / 8031, 4018 / 8031, -4018 / 8031, -4018 / 8031]
            P_ := !![36117 / 1605236, 0, 18081 / 802618, 0;
                     0, 36117 / 1605236, 0, 18081 / 802618;
                     18081 / 802618, 0, 1312681 / 401309, 0;
                     0, 18081 / 802618, 0, 1312681 / 401309]
            F_ := !![1, 0, 1, 0; 0, 1, 0, 1; 0, 0, 1, 0; 0, 0, 0, 1]
            Q_ := !![9 / 4, 0, 9 / 2, 0; 0, 9 / 4, 0, 9 / 2; 9 / 2, 0, 9, 0; 0, 9 / 2, 0, 9]
            m := 2
            H_ := FusionEKF.H_laser_init
            R_ := FusionEKF.R_laser_init }
        noise_ax := 9
        noise_ay := 9 } := by
  have h1 : FusionEKF.elapsed tracking (laserQ 1000000 (401791 / 803100) (401791 / 803100)) = 1 := by
    rw [tracking_elapsed]; norm_num
  unfold tracking2 FusionEKF.ProcessMeasurement
  rw [FusionEKF.calls_tracking envQ tracking _ tracking_initialized, h1]
  show (FusionEKF.dispatch envQ { tracking with previous_timestamp_ := 1000000 }
    (FusionEKF.refresh { tracking with previous_timestamp_ := 1000000 } 1).Predict
    (laserQ 1000000 (401791 / 803100) (401791 / 803100))).1 = _
  rw [tracking_refresh_one, predict_eval_one, tracking_eq]
  simp only [FusionEKF.dispatch, laserQ, fresh, FusionEKF.construct, update_eval_two]


theorem predict_eval_three (m : Nat) (H : Matrix (Fin m) (Fin 4) ℚ)
    (R : Matrix (Fin m) (Fin m) ℚ) :
    KalmanFilter.Predict
      { x_ := ![4018 / 8031, 4018 / 8031, -4018 / 8031, -4018 / 8031]
        P_ := !![36117 / 1605236, 0, 18081 / 802618, 0; 0, 36117 / 1605236, 0, 18081 / 802618;
         18081 / 802618, 0, 1312681 / 401309, 0; 0, 18081 / 802618, 0, 1312681 / 401309]
        F_ := !![1, 0, 1, 0; 0, 1, 0, 1; 0, 0, 1, 0; 0, 0, 0, 1]
        Q_ := !![9 / 4, 0, 9 / 2, 0; 0, 9 / 4, 0, 9 / 2; 9 / 2, 0, 9, 0; 0, 9 / 2, 0, 9]
        m := m
        H_ := H
        R_ := R } =
      { x_ := ![0, 0, -4018 / 8031, -4018 / 8031]
        P_ := !![4485473 / 802618, 0, 3127612 / 401309, 0; 0, 4485473 / 802618, 0, 3127612 / 401309;
         3127612 / 401309, 0, 4924462 / 401309, 0; 0, 3127612 / 401309, 0, 4924462 / 401309]
        F_ := !![1, 0, 1, 0; 0, 1, 0, 1; 0, 0, 1, 0; 0, 0, 0, 1]
        Q_ := !![9 / 4, 0, 9 / 2, 0; 0, 9 / 4, 0, 9 / 2; 9 / 2, 0, 9, 0; 0, 9 / 2, 0, 9]
        m := m
        H_ := H
        R_ := R } := by
  have hx : (!![1, 0, 1, 0; 0, 1, 0, 1; 0, 0, 1, 0; 0, 0, 0, 1] : Matrix (Fin 4) (Fin 4) ℚ).mulVec
      ![4018 / 8031, 4018 / 8031, -4018 / 8031, -4018 / 8031] =
      ![0, 0, -4018 / 8031, -4018 / 8031] := by
    ext i
    simp only [Matrix.mulVec, Matrix.dotProduct, Fin.sum_univ_four]
    fin_cases i <;>
      simp only [Fin.zero_eta, Fin.mk_one, Fin.reduceFinMk, Matrix.of_apply, Matrix.cons_val_zero,
        Matrix.cons_val_one, Matrix.cons_val_two, Matrix.cons_val_three, Matrix.head_cons,
        Matrix.tail_cons, Matrix.cons_val', Matrix.cons_val_fin_one, Matrix.empty_val'] <;>
      norm_num
  have hP : (!![1, 0, 1, 0; 0, 1, 0, 1; 0, 0, 1, 0; 0, 0, 0, 1] : Matrix (Fin 4) (Fin 4) ℚ) *
      (!![36117 / 1605236, 0, 18081 / 802618, 0; 0, 36117 / 1605236, 0, 18081 / 802618;
         18081 / 802618, 0, 1312681 / 401309, 0; 0, 18081 / 802618, 0, 1312681 / 401309] : Matrix (Fin 4) (Fin 4) ℚ) *
      (!![1, 0, 1, 0; 0, 1, 0, 1; 0, 0, 1, 0; 0, 0, 0, 1] : Matrix (Fin 4) (Fin 4) ℚ).transpose +
      (!![9 / 4, 0, 9 / 2, 0; 0, 9 / 4, 0, 9 / 2; 9 / 2, 0, 9, 0; 0, 9 / 2, 0, 9] : Matrix (Fin 4) (Fin 4) ℚ) =
      (!![4485473 / 802618, 0, 3127612 / 401309, 0; 0, 4485473 / 802618, 0, 3127612 / 401309;
         3127612 / 401309, 0, 4924462 / 401309, 0; 0, 3127612 / 401309, 0, 4924462 / 401309] : Matrix (Fin 4) (Fin 4) ℚ) := by
    ext i j
    simp only [Matrix.add_apply, Matrix.mul_apply, Matrix.transpose_apply, Fin.sum_univ_four]
    fin_cases i <;> fin_cases j <;>
      simp only [Fin.zero_eta, Fin.mk_one, Fin.reduceFinMk, Matrix.of_apply, Matrix.cons_val_zero,
        Matrix.cons_val_one, Matrix.cons_val_two, Matrix.cons_val_three, Matrix.head_cons,
        Matrix.tail_cons, Matrix.cons_val', Matrix.cons_val_fin_one, Matrix.empty_val'] <;>
      norm_num
  simp only [KalmanFilter.Predict, hx, hP]

theorem tracking2_reachable : FusionEKF.Reachable envQ tracking2 :=
  FusionEKF.Reachable.step _ tracking_reachable

theorem tracking2_initialized : tracking2.is_initialized_ = true := by
  rw [tracking2_eq]

theorem tracking2_elapsed (r theta rdot : ℚ) :
    FusionEKF.elapsed tracking2 (radarQ 2000000 r theta rdot) = 1 := by
  rw [tracking2_eq]
  simp only [FusionEKF.elapsed, radarQ]
  norm_num

theorem tracking2_refresh_one :
    FusionEKF.refresh { tracking2 with previous_timestamp_ := 2000000 } 1 =
      { x_ := ![4018 / 8031, 4018 / 8031, -4018 / 8031, -4018 / 8031]
        P_ := !![36117 / 1605236, 0, 18081 / 802618, 0; 0, 36117 / 1605236, 0, 18081 / 802618;
                 18081 / 802618, 0, 1312681 / 401309, 0; 0, 18081 / 802618, 0, 1312681 / 401309]
        F_ := !![1, 0, 1, 0; 0, 1, 0, 1; 0, 0, 1, 0; 0, 0, 0, 1]
        Q_ := !![9 / 4, 0, 9 / 2, 0; 0, 9 / 4, 0, 9 / 2; 9 / 2, 0, 9, 0; 0, 9 / 2, 0, 9]
        m := 2
        H_ := FusionEKF.H_laser_init
        R_ := FusionEKF.R_laser_init } := by
  rw [FusionEKF.refresh_of_gt _ _ (by norm_num), tracking2_eq]
  simp only [setCoeff_F]
  norm_num

theorem tracking2_predicted :
    (FusionEKF.refresh { tracking2 with previous_timestamp_ := 2000000 } 1).Predict =
      { x_ := ![0, 0, -4018 / 8031, -4018 / 8031]
        P_ := !![4485473 / 802618, 0, 3127612 / 401309, 0; 0, 4485473 / 802618, 0, 3127612 / 401309;
                 3127612 / 401309, 0, 4924462 / 401309, 0; 0, 3127612 / 401309, 0, 4924462 / 401309]
        F_ := !![1, 0, 1, 0; 0, 1, 0, 1; 0, 0, 1, 0; 0, 0, 0, 1]
        Q_ := !![9 / 4, 0, 9 / 2, 0; 0, 9 / 4, 0, 9 / 2; 9 / 2, 0, 9, 0; 0, 9 / 2, 0, 9]
        m := 2
        H_ := FusionEKF.H_laser_init
        R_ := FusionEKF.R_laser_init } := by
  rw [tracking2_refresh_one, predict_eval_three]

section Lifecycle

variable {α : Type} [LinearOrderedField α] [FloorRing α]

/-! ## The lifecycle flag -/

theorem FusionEKF.initialized_step (env : Env α) (s : FusionEKF α)
    (meas : MeasurementPackage α) (hi : s.is_initialized_ = true) :
    (FusionEKF.ProcessMeasurement env s meas).is_initialized_ = true := by
  unfold FusionEKF.ProcessMeasurement
  rw [FusionEKF.calls_tracking env s meas hi]
  exact (FusionEKF.dispatch_frame env _ _ meas).2.2.2.2.2.1.trans hi

theorem FusionEKF.step_uninitialized (env : Env α) (s : FusionEKF α)
    (meas : MeasurementPackage α)
    (h : (FusionEKF.ProcessMeasurement env s meas).is_initialized_ = false) :
    FusionEKF.ProcessMeasurement env s meas = s := by
  cases hi : s.is_initialized_
  · by_cases hg : (FusionEKF.initialPosition env meas).1 < 0.0001 ∧
        (FusionEKF.initialPosition env meas).2 < 0.0001
    · unfold FusionEKF.ProcessMeasurement
      rw [FusionEKF.calls_rejected env s meas hi hg.1 hg.2]
    · exfalso
      unfold FusionEKF.ProcessMeasurement at h
      rw [FusionEKF.calls_accepted env s meas hi hg] at h
      exact Bool.noConfusion h
  · rw [FusionEKF.initialized_step env s meas hi] at h
    exact Bool.noConfusion h

theorem FusionEKF.uninitialized_reachable (env : Env α) (s : FusionEKF α)
    (hr : FusionEKF.Reachable env s) (hi : s.is_initialized_ = false) :
    ∃ Hj_alloc : Matrix (Fin 3) (Fin 4) α, s = FusionEKF.construct Hj_alloc := by
  induction hr with
  | construct Hj_alloc => exact ⟨Hj_alloc, rfl⟩
  | step meas _ ih =>
    have hs := FusionEKF.step_uninitialized env _ meas hi
    rw [hs] at hi ⊢
    exact ih hi

end Lifecycle


section Constants

variable {α : Type} [LinearOrderedField α] [FloorRing α]

/-! ## The per-sensor constants -/

end Constants


section ZeroVelocity

variable {α : Type} [LinearOrderedField α]

/-! ## Prediction of a state at rest -/

theorem FusionEKF.refresh_x (s : FusionEKF α) (dt : α) :
    (FusionEKF.refresh s dt).x_ = s.ekf_.x_ := by
  by_cases hdt : dt > 0.0001
  · rw [FusionEKF.refresh_of_gt s dt hdt]
  · rw [FusionEKF.refresh_of_le s dt (not_lt.mp hdt)]

theorem FusionEKF.refresh_P (s : FusionEKF α) (dt : α) :
    (FusionEKF.refresh s dt).P_ = s.ekf_.P_ := by
  by_cases hdt : dt > 0.0001
  · rw [FusionEKF.refresh_of_gt s dt hdt]
  · rw [FusionEKF.refresh_of_le s dt (not_lt.mp hdt)]

theorem F_shape_mulVec (a b px py : α) :
    (!![1, 0, a, 0; 0, 1, 0, b; 0, 0, 1, 0; 0, 0, 0, 1] : Matrix (Fin 4) (Fin 4) α).mulVec
      ![px, py, 0, 0] = ![px, py, 0, 0] := by
  ext i
  simp only [Matrix.mulVec, Matrix.dotProduct, Fin.sum_univ_four]
  fin_cases i <;>
    simp only [Fin.zero_eta, Fin.mk_one, Fin.reduceFinMk, Matrix.of_apply, Matrix.cons_val_zero,
      Matrix.cons_val_one, Matrix.cons_val_two, Matrix.cons_val_three, Matrix.head_cons,
      Matrix.tail_cons, Matrix.cons_val', Matrix.cons_val_fin_one, Matrix.empty_val',
      Matrix.vecHead] <;>
    ring

theorem setCoeff_F_init (a b : α) :
    setCoeff (setCoeff (FusionEKF.F_init : Matrix (Fin 4) (Fin 4) α) 0 2 a) 1 3 b =
      !![1, 0, a, 0; 0, 1, 0, b; 0, 0, 1, 0; 0, 0, 0, 1] := by
  ext i j
  fin_cases i <;> fin_cases j <;> simp [setCoeff, FusionEKF.F_init]

end ZeroVelocity


/-! ## The scenario of two laser samples `0.1 s` apart -/

theorem first_laser_eq (env : Env ℚ) (Hj_alloc : Matrix (Fin 3) (Fin 4) ℚ) :
    FusionEKF.ProcessMeasurement env (FusionEKF.construct Hj_alloc) (laserQ 0 1 1) =
      { FusionEKF.construct Hj_alloc with
        ekf_ := { (FusionEKF.construct Hj_alloc).ekf_ with x_ := ![1, 1, 0, 0] }
        previous_timestamp_ := 0
        is_initialized_ := true } := by
  unfold FusionEKF.ProcessMeasurement
  rw [FusionEKF.calls_accepted env (FusionEKF.construct Hj_alloc) (laserQ 0 1 1) rfl
    (by rw [initialPosition_laserQ_one]; norm_num), initialPosition_laserQ_one]
  rfl

theorem first_laser_refresh_tenth (env : Env ℚ) (Hj_alloc : Matrix (Fin 3) (Fin 4) ℚ) :
    FusionEKF.refresh
      { FusionEKF.ProcessMeasurement env (FusionEKF.construct Hj_alloc) (laserQ 0 1 1) with
        previous_timestamp_ := 100000 } (1 / 10) =
      { x_ := ![1, 1, 0, 0]
        P_ := FusionEKF.P_init
        F_ := !![1, 0, 1 / 10, 0; 0, 1, 0, 1 / 10; 0, 0, 1, 0; 0, 0, 0, 1]
        Q_ := !![9 / 40000, 0, 9 / 2000, 0; 0, 9 / 40000, 0, 9 / 2000;
         9 / 2000, 0, 9 / 100, 0; 0, 9 / 2000, 0, 9 / 100]
        m := 2
        H_ := FusionEKF.H_laser_init
        R_ := FusionEKF.R_laser_init } := by
  rw [FusionEKF.refresh_of_gt _ _ (by norm_num), first_laser_eq]
  simp only [FusionEKF.construct, KalmanFilter.Init, FusionEKF.F_init, setCoeff_F]
  norm_num

theorem predict_eval_tenth (m : Nat) (H : Matrix (Fin m) (Fin 4) ℚ)
    (R : Matrix (Fin m) (Fin m) ℚ) :
    KalmanFilter.Predict
      { x_ := ![1, 1, 0, 0]
        P_ := FusionEKF.P_init
        F_ := !![1, 0, 1 / 10, 0; 0, 1, 0, 1 / 10; 0, 0, 1, 0; 0, 0, 0, 1]
        Q_ := !![9 / 40000, 0, 9 / 2000, 0; 0, 9 / 40000, 0, 9 / 2000;
         9 / 2000, 0, 9 / 100, 0; 0, 9 / 2000, 0, 9 / 100]
        m := m
        H_ := H
        R_ := R } =
      { x_ := ![1, 1, 0, 0]
        P_ := !![440009 / 40000, 0, 200009 / 2000, 0; 0, 440009 / 40000, 0, 200009 / 2000;
         200009 / 2000, 0, 100009 / 100, 0; 0, 200009 / 2000, 0, 100009 / 100]
        F_ := !![1, 0, 1 / 10, 0; 0, 1, 0, 1 / 10; 0, 0, 1, 0; 0, 0, 0, 1]
        Q_ := !![9 / 40000, 0, 9 / 2000, 0; 0, 9 / 40000, 0, 9 / 2000;
         9 / 2000, 0, 9 / 100, 0; 0, 9 / 2000, 0, 9 / 100]
        m := m
        H_ := H
        R_ := R } := by
  have hx : (!![1, 0, 1 / 10, 0; 0, 1, 0, 1 / 10; 0, 0, 1, 0; 0, 0, 0, 1] : Matrix (Fin 4) (Fin 4) ℚ).mulVec ![1, 1, 0, 0] = ![1, 1, 0, 0] := by
    ext i
    simp only [Matrix.mulVec, Matrix.dotProduct, Fin.sum_univ_four]
    fin_cases i <;>
      simp only [Fin.zero_eta, Fin.mk_one, Fin.reduceFinMk, Matrix.of_apply, Matrix.cons_val_zero,
        Matrix.cons_val_one, Matrix.cons_val_two, Matrix.cons_val_three, Matrix.head_cons,
        Matrix.tail_cons, Matrix.cons_val', Matrix.cons_val_fin_one, Matrix.empty_val'] <;>
      norm_num
  have hP : (!![1, 0, 1 / 10, 0; 0, 1, 0, 1 / 10; 0, 0, 1, 0; 0, 0, 0, 1] : Matrix (Fin 4) (Fin 4) ℚ) * FusionEKF.P_init *
      (!![1, 0, 1 / 10, 0; 0, 1, 0, 1 / 10; 0, 0, 1, 0; 0, 0, 0, 1] : Matrix (Fin 4) (Fin 4) ℚ).transpose +
      (!![9 / 40000, 0, 9 / 2000, 0; 0, 9 / 40000, 0, 9 / 2000;
         9 / 2000, 0, 9 / 100, 0; 0, 9 / 2000, 0, 9 / 100] : Matrix (Fin 4) (Fin 4) ℚ) =
      (!![440009 / 40000, 0, 200009 / 2000, 0; 0, 440009 / 40000, 0, 200009 / 2000;
         200009 / 2000, 0, 100009 / 100, 0; 0, 200009 / 2000, 0, 100009 / 100] : Matrix (Fin 4) (Fin 4) ℚ) := by
    ext i j
    simp only [Matrix.add_apply, Matrix.mul_apply, Matrix.transpose_apply, Fin.sum_univ_four,
      FusionEKF.P_init]
    fin_cases i <;> fin_cases j <;>
      simp only [Fin.zero_eta, Fin.mk_one, Fin.reduceFinMk, Matrix.of_apply, Matrix.cons_val_zero,
        Matrix.cons_val_one, Matrix.cons_val_two, Matrix.cons_val_three, Matrix.head_cons,
        Matrix.tail_cons, Matrix.cons_val', Matrix.cons_val_fin_one, Matrix.empty_val'] <;>
      norm_num
  simp only [KalmanFilter.Predict, hx, hP]

theorem update_eval_tenth (F Q : Matrix (Fin 4) (Fin 4) ℚ) :
    KalmanFilter.Update
      { x_ := ![1, 1, 0, 0]
        P_ := !![440009 / 40000, 0, 200009 / 2000, 0; 0, 440009 / 40000, 0, 200009 / 2000;
         200009 / 2000, 0, 100009 / 100, 0; 0, 200009 / 2000, 0, 100009 / 100]
        F_ := F
        Q_ := Q
        m := 2
        H_ := FusionEKF.H_laser_init
        R_ := FusionEKF.R_laser_init } ![2, 2] =
      { x_ := ![880918 / 440909, 880918 / 440909, 4000180 / 440909, 4000180 / 440909]
        P_ := !![3960081 / 176363600, 0, 1800081 / 8818180, 0; 0, 3960081 / 176363600, 0, 1800081 / 8818180;
         1800081 / 8818180, 0, 40912681 / 440909, 0; 0, 1800081 / 8818180, 0, 40912681 / 440909]
        F_ := F
        Q_ := Q
        m := 2
        H_ := FusionEKF.H_laser_init
        R_ := FusionEKF.R_laser_init } := by
  have hS : (FusionEKF.H_laser_init : Matrix (Fin 2) (Fin 4) ℚ) *
      (!![440009 / 40000, 0, 200009 / 2000, 0; 0, 440009 / 40000, 0, 200009 / 2000;
         200009 / 2000, 0, 100009 / 100, 0; 0, 200009 / 2000, 0, 100009 / 100] : Matrix (Fin 4) (Fin 4) ℚ) *
      (FusionEKF.H_laser_init : Matrix (Fin 2) (Fin 4) ℚ).transpose + FusionEKF.R_laser_init =
      (!![440909 / 40000, 0; 0, 440909 / 40000] : Matrix (Fin 2) (Fin 2) ℚ) := by
    ext i j
    simp only [Matrix.add_apply, Matrix.mul_apply, Matrix.transpose_apply, Fin.sum_univ_four,
      FusionEKF.H_laser_init, FusionEKF.R_laser_init]
    fin_cases i <;> fin_cases j <;>
      simp only [Fin.zero_eta, Fin.mk_one, Fin.reduceFinMk, Matrix.of_apply, Matrix.cons_val_zero,
        Matrix.cons_val_one, Matrix.cons_val_two, Matrix.cons_val_three, Matrix.head_cons,
        Matrix.tail_cons, Matrix.cons_val', Matrix.cons_val_fin_one, Matrix.empty_val'] <;>
      norm_num
  have hI : KalmanFilter.inverse (!![440909 / 40000, 0; 0, 440909 / 40000] : Matrix (Fin 2) (Fin 2) ℚ) =
      (!![40000 / 440909, 0; 0, 40000 / 440909] : Matrix (Fin 2) (Fin 2) ℚ) := by
    ext i j
    simp only [KalmanFilter.inverse, Matrix.smul_apply, Matrix.det_fin_two_of,
      Matrix.adjugate_fin_two_of]
    fin_cases i <;> fin_cases j <;>
      simp only [Fin.zero_eta, Fin.mk_one, Fin.reduceFinMk, Matrix.of_apply, Matrix.cons_val_zero,
        Matrix.cons_val_one, Matrix.cons_val_two, Matrix.cons_val_three, Matrix.head_cons,
        Matrix.tail_cons, Matrix.cons_val', Matrix.cons_val_fin_one, Matrix.empty_val'] <;>
      norm_num
  have hK : (!![440009 / 40000, 0, 200009 / 2000, 0; 0, 440009 / 40000, 0, 200009 / 2000;
         200009 / 2000, 0, 100009 / 100, 0; 0, 200009 / 2000, 0, 100009 / 100] : Matrix (Fin 4) (Fin 4) ℚ) *
      (FusionEKF.H_laser_init : Matrix (Fin 2) (Fin 4) ℚ).transpose *
      (!![40000 / 440909, 0; 0, 40000 / 440909] : Matrix (Fin 2) (Fin 2) ℚ) =
      (!![440009 / 440909, 0; 0, 440009 / 440909; 4000180 / 440909, 0; 0, 4000180 / 440909] :
        Matrix (Fin 4) (Fin 2) ℚ) := by
    ext i j
    simp only [Matrix.mul_apply, Matrix.transpose_apply, Fin.sum_univ_four, Fin.sum_univ_two,
      FusionEKF.H_laser_init]
    fin_cases i <;> fin_cases j <;>
      simp only [Fin.zero_eta, Fin.mk_one, Fin.reduceFinMk, Matrix.of_apply, Matrix.cons_val_zero,
        Matrix.cons_val_one, Matrix.cons_val_two, Matrix.cons_val_three, Matrix.head_cons,
        Matrix.tail_cons, Matrix.cons_val', Matrix.cons_val_fin_one, Matrix.empty_val'] <;>
      norm_num
  have hx : (![1, 1, 0, 0] : Fin 4 → ℚ) +
      (!![440009 / 440909, 0; 0, 440009 / 440909; 4000180 / 440909, 0; 0, 4000180 / 440909] :
        Matrix (Fin 4) (Fin 2) ℚ).mulVec
        ((![2, 2] : Fin 2 → ℚ) - (FusionEKF.H_laser_init : Matrix (Fin 2) (Fin 4) ℚ).mulVec ![1, 1, 0, 0]) =
      (![880918 / 440909, 880918 / 440909, 4000180 / 440909, 4000180 / 440909] : Fin 4 → ℚ) := by
    ext i
    simp only [Pi.add_apply, Pi.sub_apply, Matrix.mulVec, Matrix.dotProduct, Fin.sum_univ_four,
      Fin.sum_univ_two, FusionEKF.H_laser_init]
    fin_cases i <;>
      simp only [Fin.zero_eta, Fin.mk_one, Fin.reduceFinMk, Matrix.of_apply, Matrix.cons_val_zero,
        Matrix.cons_val_one, Matrix.cons_val_two, Matrix.cons_val_three, Matrix.head_cons,
        Matrix.tail_cons, Matrix.cons_val', Matrix.cons_val_fin_one, Matrix.empty_val'] <;>
      norm_num
  have hP : (1 - (!![440009 / 440909, 0; 0, 440009 / 440909; 4000180 / 440909, 0; 0, 4000180 / 440909] :
        Matrix (Fin 4) (Fin 2) ℚ) * (FusionEKF.H_laser_init : Matrix (Fin 2) (Fin 4) ℚ)) *
      (!![440009 / 40000, 0, 200009 / 2000, 0; 0, 440009 / 40000, 0, 200009 / 2000;
         200009 / 2000, 0, 100009 / 100, 0; 0, 200009 / 2000, 0, 100009 / 100] : Matrix (Fin 4) (Fin 4) ℚ) =
      (!![3960081 / 176363600, 0, 1800081 / 8818180, 0; 0, 3960081 / 176363600, 0, 1800081 / 8818180;
         1800081 / 8818180, 0, 40912681 / 440909, 0; 0, 1800081 / 8818180, 0, 40912681 / 440909] :
        Matrix (Fin 4) (Fin 4) ℚ) := by
    rw [one_fin_four]
    ext i j
    simp only [Matrix.mul_apply, Matrix.sub_apply, Fin.sum_univ_four, Fin.sum_univ_two,
      FusionEKF.H_laser_init]
    fin_cases i <;> fin_cases j <;>
      simp only [Fin.zero_eta, Fin.mk_one, Fin.reduceFinMk, Matrix.of_apply, Matrix.cons_val_zero,
        Matrix.cons_val_one, Matrix.cons_val_two, Matrix.cons_val_three, Matrix.head_cons,
        Matrix.tail_cons, Matrix.cons_val', Matrix.cons_val_fin_one, Matrix.empty_val'] <;>
      norm_num
  simp only [KalmanFilter.Update, KalmanFilter.correct, hS, hI, hK, hx, hP]

theorem second_laser_ekf (env : Env ℚ) (Hj_alloc : Matrix (Fin 3) (Fin 4) ℚ) :
    (FusionEKF.ProcessMeasurement env
      (FusionEKF.ProcessMeasurement env (FusionEKF.construct Hj_alloc) (laserQ 0 1 1))
      (laserQ 100000 2 2)).ekf_ =
      { x_ := ![880918 / 440909, 880918 / 440909, 4000180 / 440909, 4000180 / 440909]
        P_ := !![3960081 / 176363600, 0, 1800081 / 8818180, 0; 0, 3960081 / 176363600, 0, 1800081 / 8818180;
         1800081 / 8818180, 0, 40912681 / 440909, 0; 0, 1800081 / 8818180, 0, 40912681 / 440909]
        F_ := !![1, 0, 1 / 10, 0; 0, 1, 0, 1 / 10; 0, 0, 1, 0; 0, 0, 0, 1]
        Q_ := !![9 / 40000, 0, 9 / 2000, 0; 0, 9 / 40000, 0, 9 / 2000;
         9 / 2000, 0, 9 / 100, 0; 0, 9 / 2000, 0, 9 / 100]
        m := 2
        H_ := FusionEKF.H_laser_init
        R_ := FusionEKF.R_laser_init } := by
  have hi : (FusionEKF.ProcessMeasurement env (FusionEKF.construct Hj_alloc)
      (laserQ 0 1 1)).is_initialized_ = true := by
    rw [first_laser_eq]
  have h1 : FusionEKF.elapsed
      (FusionEKF.ProcessMeasurement env (FusionEKF.construct Hj_alloc) (laserQ 0 1 1))
      (laserQ 100000 2 2) = 1 / 10 := by
    rw [first_laser_eq]
    simp only [FusionEKF.elapsed, laserQ]
    norm_num
  show (FusionEKF.ProcessMeasurementCalls env
    (FusionEKF.ProcessMeasurement env (FusionEKF.construct Hj_alloc) (laserQ 0 1 1))
    (laserQ 100000 2 2)).1.ekf_ = _
  rw [FusionEKF.calls_tracking env _ _ hi, h1]
  show (FusionEKF.dispatch env
    { FusionEKF.ProcessMeasurement env (FusionEKF.construct Hj_alloc) (laserQ 0 1 1) with
      previous_timestamp_ := 100000 }
    (FusionEKF.refresh
      { FusionEKF.ProcessMeasurement env (FusionEKF.construct Hj_alloc) (laserQ 0 1 1) with
        previous_timestamp_ := 100000 } (1 / 10)).Predict
    (laserQ 100000 2 2)).1.ekf_ = _
  rw [first_laser_refresh_tenth, predict_eval_tenth, first_laser_eq]
  simp only [FusionEKF.dispatch, laserQ, FusionEKF.construct, update_eval_tenth]


section Definiteness

variable {α : Type} [LinearOrderedField α]

/-! ## Positive semi-definite matrices and the update law -/

theorem PosDefinite.posSemidefinite {n : Nat} {M : Matrix (Fin n) (Fin n) α}
    (h : PosDefinite M) : PosSemidefinite M := by
  refine ⟨h.1, fun v => ?_⟩
  by_cases hv : v = 0
  · subst hv
    simp
  · exact le_of_lt (h.2 v hv)

theorem PosSemidefinite.add {n : Nat} {A B : Matrix (Fin n) (Fin n) α}
    (hA : PosSemidefinite A) (hB : PosSemidefinite B) : PosSemidefinite (A + B) := by
  refine ⟨by rw [Matrix.transpose_add, hA.1, hB.1], fun v => ?_⟩
  rw [Matrix.add_mulVec, Matrix.dotProduct_add]
  exact add_nonneg (hA.2 v) (hB.2 v)

theorem PosSemidefinite.add_posDefinite {n : Nat} {A B : Matrix (Fin n) (Fin n) α}
    (hA : PosSemidefinite A) (hB : PosDefinite B) : PosDefinite (A + B) := by
  refine ⟨by rw [Matrix.transpose_add, hA.1, hB.1], fun v hv => ?_⟩
  rw [Matrix.add_mulVec, Matrix.dotProduct_add]
  exact add_pos_of_nonneg_of_pos (hA.2 v) (hB.2 v hv)

theorem quadratic_conj {m n : Nat} (A : Matrix (Fin m) (Fin n) α)
    (P : Matrix (Fin n) (Fin n) α) (v : Fin m → α) :
    Matrix.dotProduct v ((A * P * A.transpose).mulVec v) =
      Matrix.dotProduct (A.transpose.mulVec v) (P.mulVec (A.transpose.mulVec v)) := by
  rw [← Matrix.mulVec_mulVec, ← Matrix.mulVec_mulVec, Matrix.dotProduct_mulVec,
    ← Matrix.mulVec_transpose]

theorem PosSemidefinite.conj {m n : Nat} (A : Matrix (Fin m) (Fin n) α)
    {P : Matrix (Fin n) (Fin n) α} (hP : PosSemidefinite P) :
    PosSemidefinite (A * P * A.transpose) := by
  refine ⟨?_, fun v => ?_⟩
  · rw [Matrix.transpose_mul, Matrix.transpose_mul, Matrix.transpose_transpose, hP.1,
      Matrix.mul_assoc]
  · rw [quadratic_conj]
    exact hP.2 _

theorem posDefinite_diagonal {n : Nat} (d : Fin n → α) (hd : ∀ i, 0 < d i) :
    PosDefinite (Matrix.diagonal d) := by
  refine ⟨Matrix.diagonal_transpose d, fun v hv => ?_⟩
  have hsum : Matrix.dotProduct v ((Matrix.diagonal d).mulVec v) =
      Finset.univ.sum fun i => d i * (v i * v i) := by
    simp only [Matrix.dotProduct, Matrix.mulVec_diagonal]
    refine Finset.sum_congr rfl fun i _ => ?_
    ring
  rw [hsum]
  obtain ⟨i, hi⟩ : ∃ i, v i ≠ 0 := by
    by_contra hne
    push_neg at hne
    exact hv (funext hne)
  refine Finset.sum_pos' (fun j _ => mul_nonneg (le_of_lt (hd j)) (mul_self_nonneg _))
    ⟨i, Finset.mem_univ i, mul_pos (hd i) (mul_self_pos.mpr hi)⟩

theorem PosDefinite.det_ne_zero {n : Nat} {S : Matrix (Fin n) (Fin n) α}
    (hS : PosDefinite S) : S.det ≠ 0 := by
  intro hdet
  obtain ⟨v, hv, hSv⟩ := Matrix.exists_mulVec_eq_zero_iff.mpr hdet
  have := hS.2 v hv
  rw [hSv, Matrix.dotProduct_zero] at this
  exact lt_irrefl _ this

theorem KalmanFilter.inverse_mul {n : Nat} (S : Matrix (Fin n) (Fin n) α) (h : S.det ≠ 0) :
    KalmanFilter.inverse S * S = 1 := by
  unfold KalmanFilter.inverse
  rw [Matrix.smul_mul, Matrix.adjugate_mul, smul_smul, inv_mul_cancel₀ h, one_smul]

theorem KalmanFilter.mul_inverse {n : Nat} (S : Matrix (Fin n) (Fin n) α) (h : S.det ≠ 0) :
    S * KalmanFilter.inverse S = 1 := by
  unfold KalmanFilter.inverse
  rw [Matrix.mul_smul, Matrix.mul_adjugate, smul_smul, inv_mul_cancel₀ h, one_smul]

theorem innovation_posDefinite {m : Nat} (H : Matrix (Fin m) (Fin 4) α)
    {P : Matrix (Fin 4) (Fin 4) α} {R : Matrix (Fin m) (Fin m) α}
    (hP : PosSemidefinite P) (hR : PosDefinite R) :
    PosDefinite (H * P * H.transpose + R) :=
  (PosSemidefinite.conj H hP).add_posDefinite hR

/-- The Joseph form of the covariance update, for any gain `K` with
`K * S = P * Hᵀ`. -/
theorem joseph_form {m : Nat} (H : Matrix (Fin m) (Fin 4) α) (P : Matrix (Fin 4) (Fin 4) α)
    (R : Matrix (Fin m) (Fin m) α) (K : Matrix (Fin 4) (Fin m) α)
    (hK : K * (H * P * H.transpose + R) = P * H.transpose) :
    (1 - K * H) * P =
      (1 - K * H) * P * (1 - K * H).transpose + K * R * K.transpose := by
  have hKR : (1 - K * H) * P * H.transpose = K * R := by
    have e : K * H * P * H.transpose = K * (H * P * H.transpose) := by
      simp only [Matrix.mul_assoc]
    rw [Matrix.mul_add] at hK
    rw [Matrix.sub_mul, Matrix.sub_mul, Matrix.one_mul, e, ← hK]
    abel
  have hT : (1 - K * H).transpose = 1 - H.transpose * K.transpose := by
    rw [Matrix.transpose_sub, Matrix.transpose_one, Matrix.transpose_mul]
  rw [hT, Matrix.mul_sub, Matrix.mul_one, ← Matrix.mul_assoc, hKR]
  abel

theorem KalmanFilter.correct_posSemidefinite {m : Nat} (x : Fin 4 → α)
    {P : Matrix (Fin 4) (Fin 4) α} (H : Matrix (Fin m) (Fin 4) α)
    {R : Matrix (Fin m) (Fin m) α} (y : Fin m → α)
    (hP : PosSemidefinite P) (hR : PosDefinite R) :
    PosSemidefinite (KalmanFilter.correct x P H R y).2 := by
  have hS := innovation_posDefinite H hP hR
  have hSi := KalmanFilter.inverse_mul _ hS.det_ne_zero
  show PosSemidefinite
    ((1 - P * H.transpose * KalmanFilter.inverse (H * P * H.transpose + R) * H) * P)
  rw [joseph_form H P R _
    (by rw [Matrix.mul_assoc (P * H.transpose), hSi, Matrix.mul_one])]
  exact (PosSemidefinite.conj _ hP).add (PosSemidefinite.conj _ hR.posSemidefinite)

end Definiteness

section Covariance

variable {α : Type} [LinearOrderedField α]

/-! ## The covariance in reachable states -/

theorem R_laser_init_eq_diagonal :
    (FusionEKF.R_laser_init : Matrix (Fin 2) (Fin 2) α) = Matrix.diagonal ![0.0225, 0.0225] := by
  ext i j
  fin_cases i <;> fin_cases j <;> rfl

theorem R_radar_init_eq_diagonal :
    (FusionEKF.R_radar_init : Matrix (Fin 3) (Fin 3) α) =
      Matrix.diagonal ![0.09, 0.0009, 0.09] := by
  ext i j
  fin_cases i <;> fin_cases j <;> rfl

theorem P_init_eq_diagonal :
    (FusionEKF.P_init : Matrix (Fin 4) (Fin 4) α) = Matrix.diagonal ![1, 1, 1000, 1000] := by
  ext i j
  fin_cases i <;> fin_cases j <;> rfl

theorem posDefinite_R_laser_init :
    PosDefinite (FusionEKF.R_laser_init : Matrix (Fin 2) (Fin 2) α) := by
  rw [R_laser_init_eq_diagonal]
  refine posDefinite_diagonal _ fun i => ?_
  fin_cases i <;> norm_num

theorem posDefinite_R_radar_init :
    PosDefinite (FusionEKF.R_radar_init : Matrix (Fin 3) (Fin 3) α) := by
  rw [R_radar_init_eq_diagonal]
  refine posDefinite_diagonal _ fun i => ?_
  fin_cases i <;> norm_num

theorem posSemidefinite_P_init :
    PosSemidefinite (FusionEKF.P_init : Matrix (Fin 4) (Fin 4) α) := by
  rw [P_init_eq_diagonal]
  refine (posDefinite_diagonal _ fun i => ?_).posSemidefinite
  fin_cases i <;> norm_num

theorem posSemidefinite_one {n : Nat} : PosSemidefinite (1 : Matrix (Fin n) (Fin n) α) := by
  rw [← Matrix.diagonal_one]
  exact (posDefinite_diagonal _ fun _ => zero_lt_one).posSemidefinite

theorem Q_init_eq_conj :
    (FusionEKF.Q_init : Matrix (Fin 4) (Fin 4) α) =
      (!![1, 0; 0, 1; 1, 0; 0, 1] : Matrix (Fin 4) (Fin 2) α) *
        (1 : Matrix (Fin 2) (Fin 2) α) *
        (!![1, 0; 0, 1; 1, 0; 0, 1] : Matrix (Fin 4) (Fin 2) α).transpose := by
  rw [Matrix.mul_one]
  ext i j
  simp only [Matrix.mul_apply, Fin.sum_univ_two, Matrix.transpose_apply, FusionEKF.Q_init]
  fin_cases i <;> fin_cases j <;>
    simp only [Fin.zero_eta, Fin.mk_one, Fin.reduceFinMk, Matrix.of_apply, Matrix.cons_val_zero,
      Matrix.cons_val_one, Matrix.cons_val_two, Matrix.cons_val_three, Matrix.head_cons,
      Matrix.tail_cons, Matrix.cons_val', Matrix.cons_val_fin_one, Matrix.empty_val'] <;>
    norm_num

theorem posSemidefinite_Q_init :
    PosSemidefinite (FusionEKF.Q_init : Matrix (Fin 4) (Fin 4) α) := by
  rw [Q_init_eq_conj]
  exact PosSemidefinite.conj _ posSemidefinite_one

theorem FusionEKF.refresh_Q_posSemidefinite (s : FusionEKF α) (dt : α)
    (hax : s.noise_ax = 9) (hay : s.noise_ay = 9) (hQ : PosSemidefinite s.ekf_.Q_) :
    PosSemidefinite (FusionEKF.refresh s dt).Q_ := by
  by_cases hdt : dt > 0.0001
  · rw [FusionEKF.refresh_of_gt s dt hdt]
    show PosSemidefinite (!![_, _, _, _; _, _, _, _; _, _, _, _; _, _, _, _] :
      Matrix (Fin 4) (Fin 4) α)
    rw [Q_discretisation, hax, hay]
    refine PosSemidefinite.conj _ (posDefinite_diagonal _ fun i => ?_).posSemidefinite
    fin_cases i <;> norm_num
  · rw [FusionEKF.refresh_of_le s dt (not_lt.mp hdt)]
    exact hQ

theorem KalmanFilter.Predict_posSemidefinite (k : KalmanFilter α)
    (hP : PosSemidefinite k.P_) (hQ : PosSemidefinite k.Q_) :
    PosSemidefinite k.Predict.P_ :=
  (PosSemidefinite.conj k.F_ hP).add hQ

theorem FusionEKF.dispatch_posSemidefinite (env : Env α) (s : FusionEKF α)
    (p : KalmanFilter α) (meas : MeasurementPackage α) (hP : PosSemidefinite p.P_)
    (hl : PosDefinite s.R_laser_) (hr : PosDefinite s.R_radar_) :
    PosSemidefinite (FusionEKF.dispatch env s p meas).1.ekf_.P_ := by
  rcases meas with ⟨t, st, raw⟩
  cases st
  · exact KalmanFilter.correct_posSemidefinite p.x_ s.H_laser_
      ((show Fin 2 → α from raw) - s.H_laser_.mulVec p.x_) hP hl
  · exact KalmanFilter.correct_posSemidefinite p.x_ (env.CalculateJacobian p.x_)
      (KalmanFilter.normalizeBearing env ((show Fin 3 → α from raw) - env.h p.x_)) hP hr

variable [FloorRing α]

theorem FusionEKF.covariance_step (env : Env α) (s : FusionEKF α)
    (meas : MeasurementPackage α) (hinv : FusionEKF.Invariant s)
    (hP : PosSemidefinite s.ekf_.P_) (hQ : PosSemidefinite s.ekf_.Q_) :
    PosSemidefinite (FusionEKF.ProcessMeasurement env s meas).ekf_.P_ ∧
    PosSemidefinite (FusionEKF.ProcessMeasurement env s meas).ekf_.Q_ := by
  obtain ⟨hax, hay, hRl, hRr, -, -⟩ := hinv
  unfold FusionEKF.ProcessMeasurement
  cases hi : s.is_initialized_
  · by_cases hg : (FusionEKF.initialPosition env meas).1 < 0.0001 ∧
        (FusionEKF.initialPosition env meas).2 < 0.0001
    · rw [FusionEKF.calls_rejected env s meas hi hg.1 hg.2]
      exact ⟨hP, hQ⟩
    · rw [FusionEKF.calls_accepted env s meas hi hg]
      exact ⟨hP, hQ⟩
  · rw [FusionEKF.calls_tracking env s meas hi]
    have hQ2 : PosSemidefinite (FusionEKF.refresh { s with previous_timestamp_ := meas.timestamp_ }
        (FusionEKF.elapsed s meas)).Q_ :=
      FusionEKF.refresh_Q_posSemidefinite _ _ hax hay hQ
    have hP2 : PosSemidefinite (FusionEKF.refresh { s with previous_timestamp_ := meas.timestamp_ }
        (FusionEKF.elapsed s meas)).P_ := by
      rw [FusionEKF.refresh_P]
      exact hP
    refine ⟨?_, ?_⟩
    · refine FusionEKF.dispatch_posSemidefinite env _ _ meas
        (KalmanFilter.Predict_posSemidefinite _ hP2 hQ2) ?_ ?_
      · show PosDefinite s.R_laser_
        rw [hRl]
        exact posDefinite_R_laser_init
      · show PosDefinite s.R_radar_
        rw [hRr]
        exact posDefinite_R_radar_init
    · show PosSemidefinite (FusionEKF.dispatch env _ _ meas).1.ekf_.Q_
      rw [FusionEKF.dispatch_Q, KalmanFilter.Predict_Q]
      exact hQ2

theorem FusionEKF.covariance_of_reachable (env : Env α) (s : FusionEKF α)
    (h : FusionEKF.Reachable env s) :
    PosSemidefinite s.ekf_.P_ ∧ PosSemidefinite s.ekf_.Q_ := by
  induction h with
  | construct Hj_alloc => exact ⟨posSemidefinite_P_init, posSemidefinite_Q_init⟩
  | step meas hr ih =>
    exact FusionEKF.covariance_step env _ meas (FusionEKF.invariant_of_reachable env _ hr)
      ih.1 ih.2

end Covariance


section Degenerate

variable {α : Type} [LinearOrderedField α]

/-! ## The Jacobian computation that can fail -/

theorem Tools.CalculateJacobian_of_degenerate (env : Env α) (threshold : α) (x : Fin 4 → α)
    (hd : Tools.DegenerateState threshold x) :
    Tools.CalculateJacobian env threshold x = Except.error Tools.Error.DegenerateState := by
  unfold Tools.DegenerateState at hd
  unfold Tools.CalculateJacobian
  rw [if_pos hd]

theorem Tools.CalculateJacobian_of_not_degenerate (env : Env α) (threshold : α)
    (x : Fin 4 → α) (hd : ¬ Tools.DegenerateState threshold x) :
    Tools.CalculateJacobian env threshold x = Except.ok (env.CalculateJacobian x) := by
  unfold Tools.DegenerateState at hd
  unfold Tools.CalculateJacobian
  rw [if_neg hd]

theorem FusionEKF.dispatchExcept_radar_error (env : Env α) (threshold : α) (s : FusionEKF α)
    (p : KalmanFilter α) (t : Int) (z : Fin 3 → α) (e : Tools.Error)
    (hj : Tools.CalculateJacobian env threshold p.x_ = Except.error e) :
    FusionEKF.dispatchExcept env threshold s p ⟨t, SensorType.RADAR, z⟩ =
      ⟨{ s with ekf_ := p }, [], some e⟩ := by
  unfold FusionEKF.dispatchExcept
  simp only [hj]

theorem FusionEKF.dispatchExcept_radar_ok (env : Env α) (threshold : α) (s : FusionEKF α)
    (p : KalmanFilter α) (t : Int) (z : Fin 3 → α) (Hj : Matrix (Fin 3) (Fin 4) α)
    (hj : Tools.CalculateJacobian env threshold p.x_ = Except.ok Hj) :
    FusionEKF.dispatchExcept env threshold s p ⟨t, SensorType.RADAR, z⟩ =
      ⟨{ s with
          Hj_ := Hj
          ekf_ := KalmanFilter.UpdateEKF env { p with m := 3, H_ := Hj, R_ := s.R_radar_ } z },
        [Call.UpdateEKF { p with m := 3, H_ := Hj, R_ := s.R_radar_ } z], none⟩ := by
  unfold FusionEKF.dispatchExcept
  simp only [hj]

variable [FloorRing α]

theorem FusionEKF.ProcessMeasurementExcept_tracking (env : Env α) (threshold : α)
    (s : FusionEKF α) (meas : MeasurementPackage α) (hi : s.is_initialized_ = true) :
    FusionEKF.ProcessMeasurementExcept env threshold s meas =
      ⟨(FusionEKF.dispatchExcept env threshold { s with previous_timestamp_ := meas.timestamp_ }
          (FusionEKF.refresh s (FusionEKF.elapsed s meas)).Predict meas).state,
        Call.Predict (FusionEKF.refresh s (FusionEKF.elapsed s meas)) ::
          (FusionEKF.dispatchExcept env threshold
            { s with previous_timestamp_ := meas.timestamp_ }
            (FusionEKF.refresh s (FusionEKF.elapsed s meas)).Predict meas).calls,
        (FusionEKF.dispatchExcept env threshold { s with previous_timestamp_ := meas.timestamp_ }
          (FusionEKF.refresh s (FusionEKF.elapsed s meas)).Predict meas).failure⟩ := by
  unfold FusionEKF.ProcessMeasurementExcept
  have hn : ¬ ((!s.is_initialized_) = true) := by
    rw [hi]
    decide
  rw [if_neg hn]
  rfl

theorem FusionEKF.ProcessMeasurementExcept_of_degenerate (env : Env α) (threshold : α)
    (s : FusionEKF α) (t : Int) (z : Fin 3 → α) (hi : s.is_initialized_ = true)
    (hd : Tools.DegenerateState threshold
      (FusionEKF.refresh s (FusionEKF.elapsed s ⟨t, SensorType.RADAR, z⟩)).Predict.x_) :
    FusionEKF.ProcessMeasurementExcept env threshold s ⟨t, SensorType.RADAR, z⟩ =
      ⟨{ s with
          previous_timestamp_ := t
          ekf_ := (FusionEKF.refresh s (FusionEKF.elapsed s ⟨t, SensorType.RADAR, z⟩)).Predict },
        [Call.Predict (FusionEKF.refresh s (FusionEKF.elapsed s ⟨t, SensorType.RADAR, z⟩))],
        some Tools.Error.DegenerateState⟩ := by
  rw [FusionEKF.ProcessMeasurementExcept_tracking env threshold s _ hi,
    FusionEKF.dispatchExcept_radar_error env threshold _ _ t z _
      (Tools.CalculateJacobian_of_degenerate env threshold _ hd)]

/-- Where the Jacobian computation returns a matrix, and on every first or
laser sample, the call is that of `ProcessMeasurementCalls` and ends without a
failure. -/
theorem FusionEKF.ProcessMeasurementExcept_of_ok (env : Env α) (threshold : α)
    (s : FusionEKF α) (meas : MeasurementPackage α)
    (h : s.is_initialized_ = false ∨ meas.sensor_type_ = SensorType.LASER ∨
      ¬ Tools.DegenerateState threshold
        (FusionEKF.refresh s (FusionEKF.elapsed s meas)).Predict.x_) :
    FusionEKF.ProcessMeasurementExcept env threshold s meas =
      ⟨(FusionEKF.ProcessMeasurementCalls env s meas).1,
        (FusionEKF.ProcessMeasurementCalls env s meas).2, none⟩ := by
  cases hi : s.is_initialized_ with
  | false =>
    unfold FusionEKF.ProcessMeasurementExcept
    have hn : (!s.is_initialized_) = true := by
      rw [hi]
      decide
    rw [if_pos hn]
  | true =>
    rw [FusionEKF.ProcessMeasurementExcept_tracking env threshold s meas hi,
      FusionEKF.calls_tracking env s meas hi]
    obtain ⟨t, k, raw⟩ := meas
    cases k with
    | LASER => rfl
    | RADAR =>
      have hd : ¬ Tools.DegenerateState threshold
          (FusionEKF.refresh s (FusionEKF.elapsed s ⟨t, SensorType.RADAR, raw⟩)).Predict.x_ := by
        rcases h with h | h | h
        · rw [hi] at h
          cases h
        · cases h
        · exact h
      rw [FusionEKF.dispatchExcept_radar_ok env threshold _ _ t raw _
        (Tools.CalculateJacobian_of_not_degenerate env threshold _ hd)]
      rfl

theorem tracking2_predicted_radar :
    (FusionEKF.refresh tracking2
        (FusionEKF.elapsed tracking2 ⟨2000000, SensorType.RADAR, ![1, 0, 0]⟩)).Predict.x_ =
      ![0, 0, -4018 / 8031, -4018 / 8031] := by
  have h : (FusionEKF.refresh { tracking2 with previous_timestamp_ := 2000000 }
      (FusionEKF.elapsed tracking2 (radarQ 2000000 1 0 0))).Predict.x_ =
      ![0, 0, -4018 / 8031, -4018 / 8031] := by
    rw [tracking2_elapsed, tracking2_predicted]
  exact h

theorem tracking2_degenerate :
    Tools.DegenerateState 0.0001
      (FusionEKF.refresh tracking2
        (FusionEKF.elapsed tracking2 ⟨2000000, SensorType.RADAR, ![1, 0, 0]⟩)).Predict.x_ := by
  rw [tracking2_predicted_radar]
  norm_num [Tools.DegenerateState]

end Degenerate

/-! ## The claims -/

section Claims

variable {α : Type} [LinearOrderedField α] [FloorRing α]

/-- C1: in every reachable state with `is_initialized_` true, for every
measurement whose `dt = (timestamp_ - previous_timestamp_) / 1000000` exceeds
`0.0001`, the first call `ProcessMeasurement` makes is `Predict`, and the
transition matrix `F_` of the filter on entry to that call is exactly
`[[1,0,dt,0],[0,1,0,dt],[0,0,1,0],[0,0,0,1]]`. -/
theorem C1_transition_matrix_at_predict (env : Env α) (s : FusionEKF α)
    (meas : MeasurementPackage α) (hr : FusionEKF.Reachable env s)
    (hi : s.is_initialized_ = true) (hdt : FusionEKF.elapsed s meas > 0.0001) :
    (FusionEKF.ProcessMeasurementCalls env s meas).2.head? =
      some (Call.Predict (FusionEKF.refresh { s with previous_timestamp_ := meas.timestamp_ }
        (FusionEKF.elapsed s meas))) ∧
    (FusionEKF.refresh { s with previous_timestamp_ := meas.timestamp_ }
        (FusionEKF.elapsed s meas)).F_ =
      !![1, 0, FusionEKF.elapsed s meas, 0;
         0, 1, 0, FusionEKF.elapsed s meas;
         0, 0, 1, 0;
         0, 0, 0, 1] := by
  constructor
  · rw [FusionEKF.calls_tracking env s meas hi]
    rfl
  · obtain ⟨-, -, -, -, -, a, b, hab⟩ := FusionEKF.invariant_of_reachable env s hr
    rw [FusionEKF.refresh_of_gt _ _ hdt]
    show setCoeff (setCoeff s.ekf_.F_ 0 2 _) 1 3 _ = _
    rw [hab, setCoeff_F]

/-- C1 at the second laser sample `(2, 2)` arriving `0.1 s` after the first. -/
theorem C1_transition_matrix_at_predict_witness :
    (FusionEKF.ProcessMeasurementCalls envQ tracking (laserQ 100000 2 2)).2.head? =
      some (Call.Predict (FusionEKF.refresh
        { tracking with previous_timestamp_ := (laserQ 100000 2 2).timestamp_ }
        (FusionEKF.elapsed tracking (laserQ 100000 2 2)))) ∧
    (FusionEKF.refresh { tracking with previous_timestamp_ := (laserQ 100000 2 2).timestamp_ }
        (FusionEKF.elapsed tracking (laserQ 100000 2 2))).F_ =
      !![1, 0, FusionEKF.elapsed tracking (laserQ 100000 2 2), 0;
         0, 1, 0, FusionEKF.elapsed tracking (laserQ 100000 2 2);
         0, 0, 1, 0;
         0, 0, 0, 1] :=
  C1_transition_matrix_at_predict envQ tracking (laserQ 100000 2 2) tracking_reachable
    tracking_initialized (by rw [tracking_elapsed]; norm_num)

/-- C2: in every reachable state with `is_initialized_` true, for every
measurement with `dt > 0.0001`, the process noise `Q_` of the filter on entry
to `Predict` is `G * diag(noise_ax, noise_ay) * Gᵀ` with
`G = [[dt²/2, 0],[0, dt²/2],[dt, 0],[0, dt]]` and `noise_ax = noise_ay = 9`:
`dt⁴/4·9` on the position diagonal, `dt³/2·9` on the position-velocity cross
terms of one axis, `dt²·9` on the velocity diagonal, `0` between the axes. -/
theorem C2_process_noise_at_predict (env : Env α) (s : FusionEKF α)
    (meas : MeasurementPackage α) (hr : FusionEKF.Reachable env s)
    (hi : s.is_initialized_ = true) (hdt : FusionEKF.elapsed s meas > 0.0001) :
    (FusionEKF.ProcessMeasurementCalls env s meas).2.head? =
      some (Call.Predict (FusionEKF.refresh { s with previous_timestamp_ := meas.timestamp_ }
        (FusionEKF.elapsed s meas))) ∧
    s.noise_ax = 9 ∧ s.noise_ay = 9 ∧
    (FusionEKF.refresh { s with previous_timestamp_ := meas.timestamp_ }
        (FusionEKF.elapsed s meas)).Q_ =
      FusionEKF.G (FusionEKF.elapsed s meas) * Matrix.diagonal ![s.noise_ax, s.noise_ay] *
        (FusionEKF.G (FusionEKF.elapsed s meas)).transpose ∧
    (FusionEKF.refresh { s with previous_timestamp_ := meas.timestamp_ }
        (FusionEKF.elapsed s meas)).Q_ =
      !![FusionEKF.elapsed s meas ^ 4 / 4 * 9, 0, FusionEKF.elapsed s meas ^ 3 / 2 * 9, 0;
         0, FusionEKF.elapsed s meas ^ 4 / 4 * 9, 0, FusionEKF.elapsed s meas ^ 3 / 2 * 9;
         FusionEKF.elapsed s meas ^ 3 / 2 * 9, 0, FusionEKF.elapsed s meas ^ 2 * 9, 0;
         0, FusionEKF.elapsed s meas ^ 3 / 2 * 9, 0, FusionEKF.elapsed s meas ^ 2 * 9] := by
  obtain ⟨hax, hay, -⟩ := FusionEKF.invariant_of_reachable env s hr
  refine ⟨?_, hax, hay, ?_, ?_⟩
  · rw [FusionEKF.calls_tracking env s meas hi]
    rfl
  · rw [FusionEKF.refresh_of_gt _ _ hdt]
    exact Q_discretisation _ _ _
  · rw [FusionEKF.refresh_of_gt _ _ hdt]
    show (!![_, _, _, _; _, _, _, _; _, _, _, _; _, _, _, _] : Matrix (Fin 4) (Fin 4) α) = _
    rw [hax, hay]
    exact Q_entries _

/-- C2 at the second laser sample `(2, 2)` arriving `0.1 s` after the first. -/
theorem C2_process_noise_at_predict_witness :
    (FusionEKF.ProcessMeasurementCalls envQ tracking (laserQ 100000 2 2)).2.head? =
      some (Call.Predict (FusionEKF.refresh
        { tracking with previous_timestamp_ := (laserQ 100000 2 2).timestamp_ }
        (FusionEKF.elapsed tracking (laserQ 100000 2 2)))) ∧
    tracking.noise_ax = 9 ∧ tracking.noise_ay = 9 ∧
    (FusionEKF.refresh { tracking with previous_timestamp_ := (laserQ 100000 2 2).timestamp_ }
        (FusionEKF.elapsed tracking (laserQ 100000 2 2))).Q_ =
      FusionEKF.G (FusionEKF.elapsed tracking (laserQ 100000 2 2)) *
        Matrix.diagonal ![tracking.noise_ax, tracking.noise_ay] *
        (FusionEKF.G (FusionEKF.elapsed tracking (laserQ 100000 2 2))).transpose ∧
    (FusionEKF.refresh { tracking with previous_timestamp_ := (laserQ 100000 2 2).timestamp_ }
        (FusionEKF.elapsed tracking (laserQ 100000 2 2))).Q_ =
      !![FusionEKF.elapsed tracking (laserQ 100000 2 2) ^ 4 / 4 * 9, 0,
           FusionEKF.elapsed tracking (laserQ 100000 2 2) ^ 3 / 2 * 9, 0;
         0, FusionEKF.elapsed tracking (laserQ 100000 2 2) ^ 4 / 4 * 9, 0,
           FusionEKF.elapsed tracking (laserQ 100000 2 2) ^ 3 / 2 * 9;
         FusionEKF.elapsed tracking (laserQ 100000 2 2) ^ 3 / 2 * 9, 0,
           FusionEKF.elapsed tracking (laserQ 100000 2 2) ^ 2 * 9, 0;
         0, FusionEKF.elapsed tracking (laserQ 100000 2 2) ^ 3 / 2 * 9, 0,
           FusionEKF.elapsed tracking (laserQ 100000 2 2) ^ 2 * 9] :=
  C2_process_noise_at_predict envQ tracking (laserQ 100000 2 2) tracking_reachable
    tracking_initialized (by rw [tracking_elapsed]; norm_num)

/-- C4 (counterexample): the first laser sample `(16777217, 3)` is accepted,
and the state vector it leaves is `(16777216, 3, 0, 0)`, not
`(16777217, 3, 0, 0)`: lines 109-110 store the raw values in the `float`
locals `px_init`, `py_init`, and `16777217 = 2^24 + 1` is not a `float`. -/
theorem C4_first_laser_sample_not_exact :
    fresh.is_initialized_ = false ∧
    (FusionEKF.ProcessMeasurement envQ fresh
      ⟨0, SensorType.LASER, ![16777217, 3]⟩).is_initialized_ = true ∧
    (FusionEKF.ProcessMeasurement envQ fresh ⟨0, SensorType.LASER, ![16777217, 3]⟩).ekf_.x_ =
      ![16777216, 3, 0, 0] ∧
    (FusionEKF.ProcessMeasurement envQ fresh ⟨0, SensorType.LASER, ![16777217, 3]⟩).ekf_.x_ ≠
      ![16777217, 3, 0, 0] := by
  have hp : FusionEKF.initialPosition envQ ⟨0, SensorType.LASER, ![16777217, 3]⟩ =
      (16777216, 3) := by
    rw [FusionEKF.initialPosition_laser]
    simp only [Matrix.cons_val_zero, Matrix.cons_val_one, Matrix.head_cons,
      float32_16777217, float32_three]
  have hc := FusionEKF.first_accepted envQ fresh ⟨0, SensorType.LASER, ![16777217, 3]⟩
    16777216 3 rfl hp (by norm_num)
  have hx : (FusionEKF.ProcessMeasurement envQ fresh
      ⟨0, SensorType.LASER, ![16777217, 3]⟩).ekf_.x_ = ![16777216, 3, 0, 0] := by
    rw [hc]
  refine ⟨rfl, ?_, hx, ?_⟩
  · rw [hc]
  · rw [hx]
    intro h
    have h0 := congrFun h 0
    norm_num at h0

/-- C4 (amended): a first LASER sample with raw values `(x, y)` and timestamp
`t` that passes the guard of line 113 (which tests the values narrowed to
`float`) leaves the state vector `(float(x), float(y), 0, 0)`, sets
`previous_timestamp_` to `t` and `is_initialized_` to true; the state vector is
exactly `(x, y, 0, 0)` when `x` and `y` are `float` values. -/
theorem C4_first_laser_sample (env : Env α) (s : FusionEKF α) (t : Int) (z : Fin 2 → α)
    (hi : s.is_initialized_ = false)
    (hacc : ¬ (float32 (z 0) < 0.0001 ∧ float32 (z 1) < 0.0001)) :
    (FusionEKF.ProcessMeasurement env s ⟨t, SensorType.LASER, z⟩).ekf_.x_ =
      ![float32 (z 0), float32 (z 1), 0, 0] ∧
    (FusionEKF.ProcessMeasurement env s ⟨t, SensorType.LASER, z⟩).previous_timestamp_ = t ∧
    (FusionEKF.ProcessMeasurement env s ⟨t, SensorType.LASER, z⟩).is_initialized_ = true ∧
    (float32 (z 0) = z 0 → float32 (z 1) = z 1 →
      (FusionEKF.ProcessMeasurement env s ⟨t, SensorType.LASER, z⟩).ekf_.x_ =
        ![z 0, z 1, 0, 0]) := by
  have hx : (FusionEKF.ProcessMeasurement env s ⟨t, SensorType.LASER, z⟩).ekf_.x_ =
      ![float32 (z 0), float32 (z 1), 0, 0] := by
    unfold FusionEKF.ProcessMeasurement
    rw [FusionEKF.calls_accepted env s ⟨t, SensorType.LASER, z⟩ hi hacc]
    rfl
  refine ⟨hx, ?_, ?_, ?_⟩
  · unfold FusionEKF.ProcessMeasurement
    rw [FusionEKF.calls_accepted env s ⟨t, SensorType.LASER, z⟩ hi hacc]
  · unfold FusionEKF.ProcessMeasurement
    rw [FusionEKF.calls_accepted env s ⟨t, SensorType.LASER, z⟩ hi hacc]
  · intro h0 h1
    rw [hx, h0, h1]

/-- C4 (amended) at a fresh object and the first laser sample `(1, 1)` with
timestamp `7`: the guard is passed and the state vector is `(1, 1, 0, 0)`. -/
theorem C4_first_laser_sample_witness :
    fresh.is_initialized_ = false ∧
    ¬ (float32 (1 : ℚ) < 0.0001 ∧ float32 (1 : ℚ) < 0.0001) ∧
    (FusionEKF.ProcessMeasurement envQ fresh ⟨7, SensorType.LASER, ![1, 1]⟩).ekf_.x_ =
      ![1, 1, 0, 0] ∧
    (FusionEKF.ProcessMeasurement envQ fresh ⟨7, SensorType.LASER, ![1, 1]⟩).previous_timestamp_
      = 7 ∧
    (FusionEKF.ProcessMeasurement envQ fresh ⟨7, SensorType.LASER, ![1, 1]⟩).is_initialized_
      = true := by
  have hg : ¬ (float32 (1 : ℚ) < 0.0001 ∧ float32 (1 : ℚ) < 0.0001) := by
    rw [float32_one]
    norm_num
  have h := C4_first_laser_sample envQ fresh 7 ![1, 1] rfl hg
  exact ⟨rfl, hg, h.2.2.2 float32_one float32_one, h.2.1, h.2.2.1⟩

/-- C5 (counterexample): with `cos 0 = 1` and `sin 0 = 0`, the first radar
sample `(16777217, 0, 3)` is accepted, and the state vector it leaves is
`(16777216, 0, 0, 0)`, not `(r*cos(theta), r*sin(theta), 0, 0) =
(16777217, 0, 0, 0)`: lines 100-103 store the range, the bearing and the
products in `float` variables. -/
theorem C5_first_radar_sample_not_exact :
    envQ.cos 0 = 1 ∧ envQ.sin 0 = 0 ∧
    fresh.is_initialized_ = false ∧
    (FusionEKF.ProcessMeasurement envQ fresh
      ⟨0, SensorType.RADAR, ![16777217, 0, 3]⟩).is_initialized_ = true ∧
    (FusionEKF.ProcessMeasurement envQ fresh ⟨0, SensorType.RADAR, ![16777217, 0, 3]⟩).ekf_.x_ =
      ![16777216, 0, 0, 0] ∧
    (FusionEKF.ProcessMeasurement envQ fresh ⟨0, SensorType.RADAR, ![16777217, 0, 3]⟩).ekf_.x_ ≠
      ![16777217 * envQ.cos 0, 16777217 * envQ.sin 0, 0, 0] := by
  have hcos : envQ.cos 0 = 1 := by norm_num [envQ]
  have hsin : envQ.sin 0 = 0 := rfl
  have hp : FusionEKF.initialPosition envQ ⟨0, SensorType.RADAR, ![16777217, 0, 3]⟩ =
      (16777216, 0) := by
    rw [FusionEKF.initialPosition_radar]
    simp only [Matrix.cons_val_zero, Matrix.cons_val_one, Matrix.head_cons,
      float32_16777217, float32_zero, hcos, hsin, mul_one, mul_zero, float32_16777216]
  have hc := FusionEKF.first_accepted envQ fresh ⟨0, SensorType.RADAR, ![16777217, 0, 3]⟩
    16777216 0 rfl hp (by norm_num)
  have hx : (FusionEKF.ProcessMeasurement envQ fresh
      ⟨0, SensorType.RADAR, ![16777217, 0, 3]⟩).ekf_.x_ = ![16777216, 0, 0, 0] := by
    rw [hc]
  refine ⟨hcos, hsin, rfl, ?_, hx, ?_⟩
  · rw [hc]
  · rw [hx, hcos]
    intro h
    have h0 := congrFun h 0
    norm_num at h0

/-- C5 (amended): a first RADAR sample with raw values `(r, theta, rdot)` that
passes the guard of line 113 leaves the state vector
`(float(float(r)*cos(float(theta))), float(float(r)*sin(float(theta))), 0, 0)`
and sets `is_initialized_`, whatever the range-rate; and where `cos 0 = 1` and
`sin 0 = 0`, a first radar sample with range 5 and bearing 0 is accepted and
leaves exactly `(5, 0, 0, 0)`. -/
theorem C5_first_radar_sample (env : Env α) (s : FusionEKF α) (t : Int) (r theta rdot : α)
    (hi : s.is_initialized_ = false) :
    (¬ (float32 (float32 r * env.cos (float32 theta)) < 0.0001 ∧
        float32 (float32 r * env.sin (float32 theta)) < 0.0001) →
      (FusionEKF.ProcessMeasurement env s ⟨t, SensorType.RADAR, ![r, theta, rdot]⟩).ekf_.x_ =
          ![float32 (float32 r * env.cos (float32 theta)),
            float32 (float32 r * env.sin (float32 theta)), 0, 0] ∧
      (FusionEKF.ProcessMeasurement env s
          ⟨t, SensorType.RADAR, ![r, theta, rdot]⟩).is_initialized_ = true) ∧
    (env.cos 0 = 1 → env.sin 0 = 0 →
      (FusionEKF.ProcessMeasurement env s ⟨t, SensorType.RADAR, ![5, 0, rdot]⟩).ekf_.x_ =
        ![5, 0, 0, 0] ∧
      (FusionEKF.ProcessMeasurement env s
          ⟨t, SensorType.RADAR, ![5, 0, rdot]⟩).is_initialized_ = true) := by
  have key : ∀ a b : α,
      ¬ (float32 (float32 a * env.cos (float32 b)) < 0.0001 ∧
         float32 (float32 a * env.sin (float32 b)) < 0.0001) →
      (FusionEKF.ProcessMeasurement env s ⟨t, SensorType.RADAR, ![a, b, rdot]⟩).ekf_.x_ =
          ![float32 (float32 a * env.cos (float32 b)),
            float32 (float32 a * env.sin (float32 b)), 0, 0] ∧
      (FusionEKF.ProcessMeasurement env s
          ⟨t, SensorType.RADAR, ![a, b, rdot]⟩).is_initialized_ = true := by
    intro a b hacc
    unfold FusionEKF.ProcessMeasurement
    rw [FusionEKF.calls_accepted env s ⟨t, SensorType.RADAR, ![a, b, rdot]⟩ hi hacc]
    exact ⟨rfl, rfl⟩
  refine ⟨key r theta, ?_⟩
  intro hcos hsin
  have h5 := key 5 0
  simp only [float32_five, float32_zero, hcos, hsin, mul_one, mul_zero] at h5
  exact h5 (by norm_num)

/-- C5 (amended) at a fresh object, with `cos 0 = 1` and `sin 0 = 0`: the first
radar sample `(2, 0, 3)` passes the guard and leaves `(2, 0, 0, 0)`, and the
first radar sample `(5, 0, 3)` leaves `(5, 0, 0, 0)`. -/
theorem C5_first_radar_sample_witness :
    fresh.is_initialized_ = false ∧ envQ.cos 0 = 1 ∧ envQ.sin 0 = 0 ∧
    ¬ (float32 (float32 (2 : ℚ) * envQ.cos (float32 0)) < 0.0001 ∧
        float32 (float32 (2 : ℚ) * envQ.sin (float32 0)) < 0.0001) ∧
    (FusionEKF.ProcessMeasurement envQ fresh ⟨0, SensorType.RADAR, ![2, 0, 3]⟩).ekf_.x_ =
      ![2, 0, 0, 0] ∧
    (FusionEKF.ProcessMeasurement envQ fresh
      ⟨0, SensorType.RADAR, ![2, 0, 3]⟩).is_initialized_ = true ∧
    (FusionEKF.ProcessMeasurement envQ fresh ⟨0, SensorType.RADAR, ![5, 0, 3]⟩).ekf_.x_ =
      ![5, 0, 0, 0] ∧
    (FusionEKF.ProcessMeasurement envQ fresh
      ⟨0, SensorType.RADAR, ![5, 0, 3]⟩).is_initialized_ = true := by
  have hcos : envQ.cos 0 = 1 := by norm_num [envQ]
  have hsin : envQ.sin 0 = 0 := rfl
  have e1 : float32 (float32 (2 : ℚ) * envQ.cos (float32 0)) = 2 := by
    rw [float32_zero, float32_two, hcos, mul_one, float32_two]
  have e2 : float32 (float32 (2 : ℚ) * envQ.sin (float32 0)) = 0 := by
    rw [float32_zero, float32_two, hsin, mul_zero, float32_zero]
  have hg : ¬ (float32 (float32 (2 : ℚ) * envQ.cos (float32 0)) < 0.0001 ∧
      float32 (float32 (2 : ℚ) * envQ.sin (float32 0)) < 0.0001) := by
    rw [e1, e2]
    norm_num
  have h := C5_first_radar_sample envQ fresh 0 2 0 3 rfl
  have ha := h.1 hg
  rw [e1, e2] at ha
  exact ⟨rfl, hcos, hsin, hg, ha.1, ha.2, (h.2 hcos hsin).1, (h.2 hcos hsin).2⟩

/-- C6 (the code at the failing input): the first laser sample `(-5, -5)` has
both coordinates of magnitude `5 ≥ 0.0001`, yet line 113 compares the signed
values, so the sample is rejected: the object is unchanged and
`is_initialized_` stays false. -/
theorem C6_negative_first_sample_rejected :
    (0.0001 ≤ |(-5 : ℚ)|) ∧
    (FusionEKF.initialPosition envQ (laserQ 0 (-5) (-5)) = (-5, -5)) ∧
    fresh.is_initialized_ = false ∧
    FusionEKF.ProcessMeasurement envQ fresh (laserQ 0 (-5) (-5)) = fresh ∧
    (FusionEKF.ProcessMeasurement envQ fresh (laserQ 0 (-5) (-5))).is_initialized_ = false := by
  have h : FusionEKF.ProcessMeasurement envQ fresh (laserQ 0 (-5) (-5)) = fresh := by
    unfold FusionEKF.ProcessMeasurement
    rw [FusionEKF.calls_rejected envQ fresh (laserQ 0 (-5) (-5)) rfl
      (by rw [initialPosition_laserQ_neg_five]; norm_num)
      (by rw [initialPosition_laserQ_neg_five]; norm_num)]
  refine ⟨by norm_num, initialPosition_laserQ_neg_five envQ 0, rfl, h, ?_⟩
  rw [h]
  rfl

/-- C7: a first sample whose derived `px` and `py` are both below `0.0001` is
rejected atomically: `ProcessMeasurement` makes no `KalmanFilter` call and
returns the object unchanged (`is_initialized_` false, `previous_timestamp_`,
state vector, covariance and all matrices as before), so every next sample is
processed exactly as it would have been without the rejected one. -/
theorem C7_rejected_first_sample_unchanged (env : Env α) (s : FusionEKF α)
    (meas next : MeasurementPackage α) (hi : s.is_initialized_ = false)
    (hx : (FusionEKF.initialPosition env meas).1 < 0.0001)
    (hy : (FusionEKF.initialPosition env meas).2 < 0.0001) :
    FusionEKF.ProcessMeasurementCalls env s meas = (s, []) ∧
    FusionEKF.ProcessMeasurement env s meas = s ∧
    (FusionEKF.ProcessMeasurement env s meas).is_initialized_ = false ∧
    (FusionEKF.ProcessMeasurement env s meas).previous_timestamp_ = s.previous_timestamp_ ∧
    (FusionEKF.ProcessMeasurement env s meas).ekf_ = s.ekf_ ∧
    FusionEKF.ProcessMeasurementCalls env (FusionEKF.ProcessMeasurement env s meas) next =
      FusionEKF.ProcessMeasurementCalls env s next := by
  have h := FusionEKF.calls_rejected env s meas hi hx hy
  have h2 : FusionEKF.ProcessMeasurement env s meas = s := by
    unfold FusionEKF.ProcessMeasurement
    rw [h]
  refine ⟨h, h2, ?_, ?_, ?_, ?_⟩ <;> rw [h2]
  exact hi

/-- C7 at a fresh object, the first laser sample being `(0, 0)` and the next
one `(1, 1)`. -/
theorem C7_rejected_first_sample_unchanged_witness :
    FusionEKF.ProcessMeasurementCalls envQ fresh (laserQ 5 0 0) = (fresh, []) ∧
    FusionEKF.ProcessMeasurement envQ fresh (laserQ 5 0 0) = fresh ∧
    (FusionEKF.ProcessMeasurement envQ fresh (laserQ 5 0 0)).is_initialized_ = false ∧
    (FusionEKF.ProcessMeasurement envQ fresh (laserQ 5 0 0)).previous_timestamp_ =
      fresh.previous_timestamp_ ∧
    (FusionEKF.ProcessMeasurement envQ fresh (laserQ 5 0 0)).ekf_ = fresh.ekf_ ∧
    FusionEKF.ProcessMeasurementCalls envQ
        (FusionEKF.ProcessMeasurement envQ fresh (laserQ 5 0 0)) (laserQ 9 1 1) =
      FusionEKF.ProcessMeasurementCalls envQ fresh (laserQ 9 1 1) :=
  C7_rejected_first_sample_unchanged envQ fresh (laserQ 5 0 0) (laserQ 9 1 1) rfl
    (by rw [initialPosition_laserQ_zero]; norm_num)
    (by rw [initialPosition_laserQ_zero]; norm_num)

/-- C8: with the Jacobian computation of section 4.2, a Tracking-state RADAR
sample whose just-predicted state has `px² + py²` below the threshold makes the
Jacobian computation fail with `DegenerateState`, and `ProcessMeasurement`
applies no update: the only `KalmanFilter` call is `Predict`, no `UpdateEKF` is
made, the state and covariance after the call are the predicted-only values,
and nothing else of the object changes but `previous_timestamp_`; the failure
ends the call and reaches the caller. -/
theorem C8_degenerate_state_skips_update (env : Env α) (threshold : α) (s : FusionEKF α)
    (t : Int) (z : Fin 3 → α) (hi : s.is_initialized_ = true)
    (hd : Tools.DegenerateState threshold
      (FusionEKF.refresh s (FusionEKF.elapsed s ⟨t, SensorType.RADAR, z⟩)).Predict.x_) :
    Tools.CalculateJacobian env threshold
        (FusionEKF.refresh s (FusionEKF.elapsed s ⟨t, SensorType.RADAR, z⟩)).Predict.x_ =
      Except.error Tools.Error.DegenerateState ∧
    (FusionEKF.ProcessMeasurementExcept env threshold s ⟨t, SensorType.RADAR, z⟩).calls =
      [Call.Predict (FusionEKF.refresh s (FusionEKF.elapsed s ⟨t, SensorType.RADAR, z⟩))] ∧
    (FusionEKF.ProcessMeasurementExcept env threshold s ⟨t, SensorType.RADAR, z⟩).state.ekf_.x_ =
      (FusionEKF.refresh s (FusionEKF.elapsed s ⟨t, SensorType.RADAR, z⟩)).Predict.x_ ∧
    (FusionEKF.ProcessMeasurementExcept env threshold s ⟨t, SensorType.RADAR, z⟩).state.ekf_.P_ =
      (FusionEKF.refresh s (FusionEKF.elapsed s ⟨t, SensorType.RADAR, z⟩)).Predict.P_ ∧
    (FusionEKF.ProcessMeasurementExcept env threshold s ⟨t, SensorType.RADAR, z⟩).state =
      { s with
        previous_timestamp_ := t
        ekf_ := (FusionEKF.refresh s (FusionEKF.elapsed s ⟨t, SensorType.RADAR, z⟩)).Predict } ∧
    (FusionEKF.ProcessMeasurementExcept env threshold s ⟨t, SensorType.RADAR, z⟩).failure =
      some Tools.Error.DegenerateState := by
  have hj := Tools.CalculateJacobian_of_degenerate env threshold _ hd
  have h := FusionEKF.ProcessMeasurementExcept_of_degenerate env threshold s t z hi hd
  rw [h]
  exact ⟨hj, rfl, rfl, rfl, rfl, rfl⟩

/-- C8 at the state reached by two laser samples and the radar sample that
finds the predicted state at the origin, with the threshold `0.0001`. -/
theorem C8_degenerate_state_skips_update_witness :
    FusionEKF.Reachable envQ tracking2 ∧ tracking2.is_initialized_ = true ∧
    (FusionEKF.refresh tracking2
        (FusionEKF.elapsed tracking2 ⟨2000000, SensorType.RADAR, ![1, 0, 0]⟩)).Predict.x_ =
      ![0, 0, -4018 / 8031, -4018 / 8031] ∧
    Tools.DegenerateState 0.0001
      (FusionEKF.refresh tracking2
        (FusionEKF.elapsed tracking2 ⟨2000000, SensorType.RADAR, ![1, 0, 0]⟩)).Predict.x_ ∧
    (Tools.CalculateJacobian envQ 0.0001
        (FusionEKF.refresh tracking2
          (FusionEKF.elapsed tracking2 ⟨2000000, SensorType.RADAR, ![1, 0, 0]⟩)).Predict.x_ =
      Except.error Tools.Error.DegenerateState ∧
    (FusionEKF.ProcessMeasurementExcept envQ 0.0001 tracking2
        ⟨2000000, SensorType.RADAR, ![1, 0, 0]⟩).calls =
      [Call.Predict (FusionEKF.refresh tracking2
        (FusionEKF.elapsed tracking2 ⟨2000000, SensorType.RADAR, ![1, 0, 0]⟩))] ∧
    (FusionEKF.ProcessMeasurementExcept envQ 0.0001 tracking2
        ⟨2000000, SensorType.RADAR, ![1, 0, 0]⟩).state.ekf_.x_ =
      (FusionEKF.refresh tracking2
        (FusionEKF.elapsed tracking2 ⟨2000000, SensorType.RADAR, ![1, 0, 0]⟩)).Predict.x_ ∧
    (FusionEKF.ProcessMeasurementExcept envQ 0.0001 tracking2
        ⟨2000000, SensorType.RADAR, ![1, 0, 0]⟩).state.ekf_.P_ =
      (FusionEKF.refresh tracking2
        (FusionEKF.elapsed tracking2 ⟨2000000, SensorType.RADAR, ![1, 0, 0]⟩)).Predict.P_ ∧
    (FusionEKF.ProcessMeasurementExcept envQ 0.0001 tracking2
        ⟨2000000, SensorType.RADAR, ![1, 0, 0]⟩).state =
      { tracking2 with
        previous_timestamp_ := 2000000
        ekf_ := (FusionEKF.refresh tracking2
          (FusionEKF.elapsed tracking2 ⟨2000000, SensorType.RADAR, ![1, 0, 0]⟩)).Predict } ∧
    (FusionEKF.ProcessMeasurementExcept envQ 0.0001 tracking2
        ⟨2000000, SensorType.RADAR, ![1, 0, 0]⟩).failure =
      some Tools.Error.DegenerateState) :=
  ⟨tracking2_reachable, tracking2_initialized, tracking2_predicted_radar,
    tracking2_degenerate,
    C8_degenerate_state_skips_update envQ 0.0001 tracking2 2000000 ![1, 0, 0]
      tracking2_initialized tracking2_degenerate⟩

/-- C9 (counterexample): in the reachable Tracking state left by the first
laser sample `(1, 1)` at time `0`, a second laser sample with the same
timestamp has `dt = 0`, but the entries `F_(0,2)` and `F_(1,3)` of the filter
on entry to `Predict` are `1`, the value set by the constructor. -/
theorem C9_stale_transition_entries :
    FusionEKF.Reachable envQ tracking ∧ tracking.is_initialized_ = true ∧
    (FusionEKF.ProcessMeasurementCalls envQ tracking (laserQ 0 2 2)).2.head? =
      some (Call.Predict (FusionEKF.refresh
        { tracking with previous_timestamp_ := (laserQ 0 2 2).timestamp_ }
        (FusionEKF.elapsed tracking (laserQ 0 2 2)))) ∧
    FusionEKF.elapsed tracking (laserQ 0 2 2) = 0 ∧
    (FusionEKF.refresh { tracking with previous_timestamp_ := (laserQ 0 2 2).timestamp_ }
        (FusionEKF.elapsed tracking (laserQ 0 2 2))).F_ 0 2 = 1 ∧
    (FusionEKF.refresh { tracking with previous_timestamp_ := (laserQ 0 2 2).timestamp_ }
        (FusionEKF.elapsed tracking (laserQ 0 2 2))).F_ 1 3 = 1 ∧
    (FusionEKF.refresh { tracking with previous_timestamp_ := (laserQ 0 2 2).timestamp_ }
        (FusionEKF.elapsed tracking (laserQ 0 2 2))).F_ 0 2 ≠
      FusionEKF.elapsed tracking (laserQ 0 2 2) ∧
    (FusionEKF.refresh { tracking with previous_timestamp_ := (laserQ 0 2 2).timestamp_ }
        (FusionEKF.elapsed tracking (laserQ 0 2 2))).F_ 1 3 ≠
      FusionEKF.elapsed tracking (laserQ 0 2 2) := by
  have hdt : FusionEKF.elapsed tracking (laserQ 0 2 2) = 0 := by
    rw [tracking_elapsed]; norm_num
  have hF : (FusionEKF.refresh { tracking with previous_timestamp_ := (laserQ 0 2 2).timestamp_ }
        (FusionEKF.elapsed tracking (laserQ 0 2 2))).F_ = FusionEKF.F_init := by
    rw [FusionEKF.refresh_of_le _ _ (by rw [hdt]; norm_num), tracking_eq]
    rfl
  refine ⟨tracking_reachable, tracking_initialized, ?_, hdt, ?_, ?_, ?_, ?_⟩
  · rw [FusionEKF.calls_tracking envQ tracking _ tracking_initialized]
    rfl
  · rw [hF]; rfl
  · rw [hF]; rfl
  · rw [hF, hdt]; simp [FusionEKF.F_init]
  · rw [hF, hdt]; simp [FusionEKF.F_init]

/-- C9 (amended): in the Tracking state the first call is `Predict`, and the
entries `F_(0,2)` and `F_(1,3)` of the filter on entry to it equal the
sample's own `dt` when `dt > 0.0001`; otherwise they are the entries `F_` had
before the call. -/
theorem C9_transition_entries_refreshed_above_threshold (env : Env α) (s : FusionEKF α)
    (meas : MeasurementPackage α) (hi : s.is_initialized_ = true) :
    (FusionEKF.ProcessMeasurementCalls env s meas).2.head? =
      some (Call.Predict (FusionEKF.refresh { s with previous_timestamp_ := meas.timestamp_ }
        (FusionEKF.elapsed s meas))) ∧
    (FusionEKF.refresh { s with previous_timestamp_ := meas.timestamp_ }
        (FusionEKF.elapsed s meas)).F_ 0 2 =
      (if FusionEKF.elapsed s meas > 0.0001 then FusionEKF.elapsed s meas else s.ekf_.F_ 0 2) ∧
    (FusionEKF.refresh { s with previous_timestamp_ := meas.timestamp_ }
        (FusionEKF.elapsed s meas)).F_ 1 3 =
      (if FusionEKF.elapsed s meas > 0.0001 then FusionEKF.elapsed s meas else s.ekf_.F_ 1 3) := by
  refine ⟨?_, ?_, ?_⟩
  · rw [FusionEKF.calls_tracking env s meas hi]
    rfl
  · by_cases hdt : FusionEKF.elapsed s meas > 0.0001
    · rw [if_pos hdt, FusionEKF.refresh_of_gt _ _ hdt]
      simp [setCoeff]
    · rw [if_neg hdt, FusionEKF.refresh_of_le _ _ (not_lt.mp hdt)]
  · by_cases hdt : FusionEKF.elapsed s meas > 0.0001
    · rw [if_pos hdt, FusionEKF.refresh_of_gt _ _ hdt]
      simp [setCoeff]
    · rw [if_neg hdt, FusionEKF.refresh_of_le _ _ (not_lt.mp hdt)]

/-- C9 (amended) at the second laser sample `(2, 2)` arriving `0.1 s` after the
first. -/
theorem C9_transition_entries_refreshed_above_threshold_witness :
    tracking.is_initialized_ = true ∧
    (FusionEKF.ProcessMeasurementCalls envQ tracking (laserQ 100000 2 2)).2.head? =
      some (Call.Predict (FusionEKF.refresh
        { tracking with previous_timestamp_ := (laserQ 100000 2 2).timestamp_ }
        (FusionEKF.elapsed tracking (laserQ 100000 2 2)))) ∧
    (FusionEKF.refresh { tracking with previous_timestamp_ := (laserQ 100000 2 2).timestamp_ }
        (FusionEKF.elapsed tracking (laserQ 100000 2 2))).F_ 0 2 =
      (if FusionEKF.elapsed tracking (laserQ 100000 2 2) > 0.0001
        then FusionEKF.elapsed tracking (laserQ 100000 2 2) else tracking.ekf_.F_ 0 2) ∧
    (FusionEKF.refresh { tracking with previous_timestamp_ := (laserQ 100000 2 2).timestamp_ }
        (FusionEKF.elapsed tracking (laserQ 100000 2 2))).F_ 1 3 =
      (if FusionEKF.elapsed tracking (laserQ 100000 2 2) > 0.0001
        then FusionEKF.elapsed tracking (laserQ 100000 2 2) else tracking.ekf_.F_ 1 3) :=
  ⟨tracking_initialized,
    C9_transition_entries_refreshed_above_threshold envQ tracking (laserQ 100000 2 2)
      tracking_initialized⟩

/-- C11: in every state reachable from the constructor by any sequence of
`ProcessMeasurement` calls, whatever matrices `CalculateJacobian` returns, the
covariance `P_` is symmetric and positive semi-definite: `P_ᵀ = P_` and
`vᵀ P_ v ≥ 0` for every vector `v` (in any linearly ordered field, the reals
included). -/
theorem C11_covariance_symmetric_psd (env : Env α) (s : FusionEKF α)
    (v : Fin 4 → α) (hr : FusionEKF.Reachable env s) :
    PosSemidefinite s.ekf_.P_ ∧ s.ekf_.P_.transpose = s.ekf_.P_ ∧
    0 ≤ Matrix.dotProduct v (s.ekf_.P_.mulVec v) :=
  ⟨(FusionEKF.covariance_of_reachable env s hr).1,
    (FusionEKF.covariance_of_reachable env s hr).1.1,
    (FusionEKF.covariance_of_reachable env s hr).1.2 v⟩

/-- C11 at the state reached by two laser samples, with the vector
`(1, -1, 2, 0)`. -/
theorem C11_covariance_symmetric_psd_witness :
    FusionEKF.Reachable envQ tracking2 ∧
    PosSemidefinite tracking2.ekf_.P_ ∧ tracking2.ekf_.P_.transpose = tracking2.ekf_.P_ ∧
    0 ≤ Matrix.dotProduct ![1, -1, 2, 0] (tracking2.ekf_.P_.mulVec ![1, -1, 2, 0]) :=
  ⟨tracking2_reachable,
    C11_covariance_symmetric_psd envQ tracking2 ![1, -1, 2, 0] tracking2_reachable⟩

/-- C12: from a freshly constructed object, after the laser sample
`(x=1, y=1, t=0)` and then the laser sample `(x=2, y=2, t=100000)`, the
estimated `vx` and `vy` are strictly positive and `trace(P_)` is strictly
smaller than the trace of the initial covariance, which is `2002`. -/
theorem C12_two_laser_samples (env : Env ℚ) (Hj_alloc : Matrix (Fin 3) (Fin 4) ℚ) :
    0 < (FusionEKF.ProcessMeasurement env
      (FusionEKF.ProcessMeasurement env (FusionEKF.construct Hj_alloc) (laserQ 0 1 1))
      (laserQ 100000 2 2)).ekf_.x_ 2 ∧
    0 < (FusionEKF.ProcessMeasurement env
      (FusionEKF.ProcessMeasurement env (FusionEKF.construct Hj_alloc) (laserQ 0 1 1))
      (laserQ 100000 2 2)).ekf_.x_ 3 ∧
    Matrix.trace (FusionEKF.ProcessMeasurement env
      (FusionEKF.ProcessMeasurement env (FusionEKF.construct Hj_alloc) (laserQ 0 1 1))
      (laserQ 100000 2 2)).ekf_.P_ < Matrix.trace (FusionEKF.construct Hj_alloc).ekf_.P_ ∧
    Matrix.trace (FusionEKF.construct Hj_alloc).ekf_.P_ = 2002 ∧
    (FusionEKF.ProcessMeasurement env
      (FusionEKF.ProcessMeasurement env (FusionEKF.construct Hj_alloc) (laserQ 0 1 1))
      (laserQ 100000 2 2)).ekf_.x_ =
      ![880918 / 440909, 880918 / 440909, 4000180 / 440909, 4000180 / 440909] ∧
    Matrix.trace (FusionEKF.ProcessMeasurement env
      (FusionEKF.ProcessMeasurement env (FusionEKF.construct Hj_alloc) (laserQ 0 1 1))
      (laserQ 100000 2 2)).ekf_.P_ = 16369032481 / 88181800 := by
  have h0 : Matrix.trace (FusionEKF.construct Hj_alloc).ekf_.P_ = 2002 := by
    show Matrix.trace (FusionEKF.P_init : Matrix (Fin 4) (Fin 4) ℚ) = 2002
    simp only [Matrix.trace, Matrix.diag, Fin.sum_univ_four, FusionEKF.P_init]
    simp only [Fin.zero_eta, Fin.mk_one, Fin.reduceFinMk, Matrix.of_apply, Matrix.cons_val_zero,
      Matrix.cons_val_one, Matrix.cons_val_two, Matrix.cons_val_three, Matrix.head_cons,
      Matrix.tail_cons, Matrix.cons_val', Matrix.cons_val_fin_one, Matrix.empty_val']
    norm_num
  have h2 : Matrix.trace (FusionEKF.ProcessMeasurement env
      (FusionEKF.ProcessMeasurement env (FusionEKF.construct Hj_alloc) (laserQ 0 1 1))
      (laserQ 100000 2 2)).ekf_.P_ = 16369032481 / 88181800 := by
    rw [second_laser_ekf]
    simp only [Matrix.trace, Matrix.diag, Fin.sum_univ_four]
    simp only [Fin.zero_eta, Fin.mk_one, Fin.reduceFinMk, Matrix.of_apply, Matrix.cons_val_zero,
      Matrix.cons_val_one, Matrix.cons_val_two, Matrix.cons_val_three, Matrix.head_cons,
      Matrix.tail_cons, Matrix.cons_val', Matrix.cons_val_fin_one, Matrix.empty_val']
    norm_num
  have hx : (FusionEKF.ProcessMeasurement env
      (FusionEKF.ProcessMeasurement env (FusionEKF.construct Hj_alloc) (laserQ 0 1 1))
      (laserQ 100000 2 2)).ekf_.x_ =
      ![880918 / 440909, 880918 / 440909, 4000180 / 440909, 4000180 / 440909] := by
    rw [second_laser_ekf]
  refine ⟨?_, ?_, ?_, h0, hx, h2⟩
  · rw [hx]
    norm_num
  · rw [hx]
    norm_num
  · rw [h2, h0]
    norm_num

/-- C13: `is_initialized_` is false immediately after construction, and from
every state in which it is true, it is still true after `ProcessMeasurement`
on any measurement: the machine never returns from Tracking to Uninitialized. -/
theorem C13_initialized_is_permanent (env : Env α) (Hj_alloc : Matrix (Fin 3) (Fin 4) α)
    (s : FusionEKF α) (meas : MeasurementPackage α) (hi : s.is_initialized_ = true) :
    (FusionEKF.construct Hj_alloc).is_initialized_ = false ∧
    (FusionEKF.ProcessMeasurement env s meas).is_initialized_ = true :=
  ⟨rfl, FusionEKF.initialized_step env s meas hi⟩

/-- C13 at the state left by the first laser sample, fed a radar sample. -/
theorem C13_initialized_is_permanent_witness :
    tracking.is_initialized_ = true ∧
    (FusionEKF.construct (0 : Matrix (Fin 3) (Fin 4) ℚ)).is_initialized_ = false ∧
    (FusionEKF.ProcessMeasurement envQ tracking (radarQ 100000 1 0 0)).is_initialized_ = true :=
  ⟨tracking_initialized,
    C13_initialized_is_permanent envQ 0 tracking (radarQ 100000 1 0 0) tracking_initialized⟩

/-- C14: with `F_` the constructor's `F_init` whose entries `(0,2)` and `(1,3)`
are overwritten by any values, `Predict` leaves every state vector of the form
`(px, py, 0, 0)` unchanged; in particular, after an accepted first sample in a
state reached from the constructor, the `Predict` of the next call leaves the
seeded state vector unchanged, whatever that call's `dt`. -/
theorem C14_predict_keeps_state_at_rest (env : Env α) (k : KalmanFilter α)
    (a b px py : α) (s : FusionEKF α) (meas next : MeasurementPackage α)
    (hF : k.F_ = setCoeff (setCoeff FusionEKF.F_init 0 2 a) 1 3 b)
    (hx : k.x_ = ![px, py, 0, 0])
    (hr : FusionEKF.Reachable env s) (hi : s.is_initialized_ = false)
    (hacc : ¬ ((FusionEKF.initialPosition env meas).1 < 0.0001 ∧
               (FusionEKF.initialPosition env meas).2 < 0.0001)) :
    k.Predict.x_ = ![px, py, 0, 0] ∧
    (FusionEKF.ProcessMeasurement env s meas).ekf_.x_ =
      ![(FusionEKF.initialPosition env meas).1, (FusionEKF.initialPosition env meas).2, 0, 0] ∧
    (FusionEKF.ProcessMeasurementCalls env (FusionEKF.ProcessMeasurement env s meas)
        next).2.head? =
      some (Call.Predict (FusionEKF.refresh
        { FusionEKF.ProcessMeasurement env s meas with previous_timestamp_ := next.timestamp_ }
        (FusionEKF.elapsed (FusionEKF.ProcessMeasurement env s meas) next))) ∧
    (FusionEKF.refresh
        { FusionEKF.ProcessMeasurement env s meas with previous_timestamp_ := next.timestamp_ }
        (FusionEKF.elapsed (FusionEKF.ProcessMeasurement env s meas) next)).Predict.x_ =
      (FusionEKF.ProcessMeasurement env s meas).ekf_.x_ := by
  have h1 : k.Predict.x_ = ![px, py, 0, 0] := by
    show k.F_.mulVec k.x_ = _
    rw [hF, hx, setCoeff_F_init, F_shape_mulVec]
  have hs : (FusionEKF.ProcessMeasurement env s meas).ekf_.x_ =
      ![(FusionEKF.initialPosition env meas).1, (FusionEKF.initialPosition env meas).2, 0, 0] := by
    unfold FusionEKF.ProcessMeasurement
    rw [FusionEKF.calls_accepted env s meas hi hacc]
  have hi2 : (FusionEKF.ProcessMeasurement env s meas).is_initialized_ = true := by
    unfold FusionEKF.ProcessMeasurement
    rw [FusionEKF.calls_accepted env s meas hi hacc]
  refine ⟨h1, hs, ?_, ?_⟩
  · rw [FusionEKF.calls_tracking env _ next hi2]
    rfl
  · obtain ⟨-, -, -, -, -, hshape⟩ := FusionEKF.invariant_of_reachable env _
      (FusionEKF.Reachable.step meas hr)
    obtain ⟨c, d, hcd⟩ := FusionEKF.refresh_F_shape
      { FusionEKF.ProcessMeasurement env s meas with previous_timestamp_ := next.timestamp_ }
      (FusionEKF.elapsed (FusionEKF.ProcessMeasurement env s meas) next) hshape
    show (FusionEKF.refresh _ _).F_.mulVec (FusionEKF.refresh _ _).x_ = _
    rw [hcd, FusionEKF.refresh_x]
    show Matrix.mulVec _ (FusionEKF.ProcessMeasurement env s meas).ekf_.x_ = _
    rw [hs, F_shape_mulVec]

/-- C14 at a filter with entries `3` and `5` written into `F_init` and the
state `(7, 2, 0, 0)`, and at a fresh object fed the laser samples `(1, 1)` and
then `(2, 2)`. -/
theorem C14_predict_keeps_state_at_rest_witness :
    (KalmanFilter.Predict
      { fresh.ekf_ with
        F_ := setCoeff (setCoeff FusionEKF.F_init 0 2 3) 1 3 5
        x_ := ![7, 2, 0, 0] }).x_ = ![7, 2, 0, 0] ∧
    (FusionEKF.ProcessMeasurement envQ fresh (laserQ 0 1 1)).ekf_.x_ =
      ![(FusionEKF.initialPosition envQ (laserQ 0 1 1)).1,
        (FusionEKF.initialPosition envQ (laserQ 0 1 1)).2, 0, 0] ∧
    (FusionEKF.ProcessMeasurementCalls envQ (FusionEKF.ProcessMeasurement envQ fresh (laserQ 0 1 1))
        (laserQ 100000 2 2)).2.head? =
      some (Call.Predict (FusionEKF.refresh
        { FusionEKF.ProcessMeasurement envQ fresh (laserQ 0 1 1) with
          previous_timestamp_ := (laserQ 100000 2 2).timestamp_ }
        (FusionEKF.elapsed (FusionEKF.ProcessMeasurement envQ fresh (laserQ 0 1 1))
          (laserQ 100000 2 2)))) ∧
    (FusionEKF.refresh
        { FusionEKF.ProcessMeasurement envQ fresh (laserQ 0 1 1) with
          previous_timestamp_ := (laserQ 100000 2 2).timestamp_ }
        (FusionEKF.elapsed (FusionEKF.ProcessMeasurement envQ fresh (laserQ 0 1 1))
          (laserQ 100000 2 2))).Predict.x_ =
      (FusionEKF.ProcessMeasurement envQ fresh (laserQ 0 1 1)).ekf_.x_ :=
  C14_predict_keeps_state_at_rest envQ
    { fresh.ekf_ with
      F_ := setCoeff (setCoeff FusionEKF.F_init 0 2 3) 1 3 5
      x_ := ![7, 2, 0, 0] }
    3 5 7 2 fresh (laserQ 0 1 1) (laserQ 100000 2 2) rfl rfl
    (FusionEKF.Reachable.construct 0) rfl
    (by rw [initialPosition_laserQ_one]; norm_num)

end Claims

section ConstructorClaim

variable {α : Type} [LinearOrderedField α]

/-- C15: immediately after construction `R_laser_ = diag(0.0225, 0.0225)`,
`R_radar_ = diag(0.09, 0.0009, 0.09)`, `P_ = diag(1, 1, 1000, 1000)`,
`noise_ax = noise_ay = 9`, `H_laser_ = [[1,0,0,0],[0,1,0,0]]`, and
`H_laser_ * (px, py, vx, vy) = (px, py)` for every state vector. -/
theorem C15_constructor_constants (Hj_alloc : Matrix (Fin 3) (Fin 4) α) (x : Fin 4 → α) :
    (FusionEKF.construct Hj_alloc).R_laser_ = Matrix.diagonal ![0.0225, 0.0225] ∧
    (FusionEKF.construct Hj_alloc).R_radar_ = Matrix.diagonal ![0.09, 0.0009, 0.09] ∧
    (FusionEKF.construct Hj_alloc).ekf_.P_ = Matrix.diagonal ![1, 1, 1000, 1000] ∧
    (FusionEKF.construct Hj_alloc).noise_ax = 9 ∧
    (FusionEKF.construct Hj_alloc).noise_ay = 9 ∧
    (FusionEKF.construct Hj_alloc).H_laser_ = !![1, 0, 0, 0; 0, 1, 0, 0] ∧
    (FusionEKF.construct Hj_alloc).H_laser_.mulVec x = ![x 0, x 1] := by
  refine ⟨?_, ?_, ?_, rfl, rfl, rfl, ?_⟩
  · ext i j
    fin_cases i <;> fin_cases j <;> rfl
  · ext i j
    fin_cases i <;> fin_cases j <;> rfl
  · ext i j
    fin_cases i <;> fin_cases j <;> rfl
  · ext i
    fin_cases i <;>
      simp [FusionEKF.construct, FusionEKF.H_laser_init, Matrix.mulVec, Matrix.dotProduct,
        Fin.sum_univ_four]

end ConstructorClaim

section LaterClaims

variable {α : Type} [LinearOrderedField α] [FloorRing α]

/-- C17: in every state reachable from the constructor and for every
measurement, with `P` the covariance `Predict` leaves, the innovation
covariance `S = H*P*Hᵀ + R` of the laser update (`H_laser_`, `R_laser_`) and
of the radar update (any 3×4 matrix `J` as Jacobian, `R_radar_`) is symmetric
positive definite, its determinant is not zero, and `S.inverse()` is a
two-sided inverse of it: the innovation covariance is never singular. -/
theorem C17_innovation_covariance_invertible (env : Env α) (s : FusionEKF α)
    (meas : MeasurementPackage α) (J : Matrix (Fin 3) (Fin 4) α)
    (hr : FusionEKF.Reachable env s) :
    (PosDefinite (s.H_laser_ *
        (FusionEKF.refresh { s with previous_timestamp_ := meas.timestamp_ }
          (FusionEKF.elapsed s meas)).Predict.P_ * s.H_laser_.transpose + s.R_laser_) ∧
      (s.H_laser_ *
        (FusionEKF.refresh { s with previous_timestamp_ := meas.timestamp_ }
          (FusionEKF.elapsed s meas)).Predict.P_ * s.H_laser_.transpose + s.R_laser_).det ≠ 0 ∧
      (s.H_laser_ *
        (FusionEKF.refresh { s with previous_timestamp_ := meas.timestamp_ }
          (FusionEKF.elapsed s meas)).Predict.P_ * s.H_laser_.transpose + s.R_laser_) *
        KalmanFilter.inverse (s.H_laser_ *
          (FusionEKF.refresh { s with previous_timestamp_ := meas.timestamp_ }
            (FusionEKF.elapsed s meas)).Predict.P_ * s.H_laser_.transpose + s.R_laser_) = 1 ∧
      KalmanFilter.inverse (s.H_laser_ *
          (FusionEKF.refresh { s with previous_timestamp_ := meas.timestamp_ }
            (FusionEKF.elapsed s meas)).Predict.P_ * s.H_laser_.transpose + s.R_laser_) *
        (s.H_laser_ *
          (FusionEKF.refresh { s with previous_timestamp_ := meas.timestamp_ }
            (FusionEKF.elapsed s meas)).Predict.P_ * s.H_laser_.transpose + s.R_laser_) = 1) ∧
    (PosDefinite (J *
        (FusionEKF.refresh { s with previous_timestamp_ := meas.timestamp_ }
          (FusionEKF.elapsed s meas)).Predict.P_ * J.transpose + s.R_radar_) ∧
      (J *
        (FusionEKF.refresh { s with previous_timestamp_ := meas.timestamp_ }
          (FusionEKF.elapsed s meas)).Predict.P_ * J.transpose + s.R_radar_).det ≠ 0 ∧
      (J *
        (FusionEKF.refresh { s with previous_timestamp_ := meas.timestamp_ }
          (FusionEKF.elapsed s meas)).Predict.P_ * J.transpose + s.R_radar_) *
        KalmanFilter.inverse (J *
          (FusionEKF.refresh { s with previous_timestamp_ := meas.timestamp_ }
            (FusionEKF.elapsed s meas)).Predict.P_ * J.transpose + s.R_radar_) = 1 ∧
      KalmanFilter.inverse (J *
          (FusionEKF.refresh { s with previous_timestamp_ := meas.timestamp_ }
            (FusionEKF.elapsed s meas)).Predict.P_ * J.transpose + s.R_radar_) *
        (J *
          (FusionEKF.refresh { s with previous_timestamp_ := meas.timestamp_ }
            (FusionEKF.elapsed s meas)).Predict.P_ * J.transpose + s.R_radar_) = 1) := by
  obtain ⟨hax, hay, hRl, hRr, -, -⟩ := FusionEKF.invariant_of_reachable env s hr
  obtain ⟨hP, hQ⟩ := FusionEKF.covariance_of_reachable env s hr
  have hPred : PosSemidefinite
      (FusionEKF.refresh { s with previous_timestamp_ := meas.timestamp_ }
        (FusionEKF.elapsed s meas)).Predict.P_ := by
    refine KalmanFilter.Predict_posSemidefinite _ ?_
      (FusionEKF.refresh_Q_posSemidefinite _ _ hax hay hQ)
    rw [FusionEKF.refresh_P]
    exact hP
  have hl : PosDefinite s.R_laser_ := by
    rw [hRl]
    exact posDefinite_R_laser_init
  have hrad : PosDefinite s.R_radar_ := by
    rw [hRr]
    exact posDefinite_R_radar_init
  have h1 := innovation_posDefinite s.H_laser_ hPred hl
  have h2 := innovation_posDefinite J hPred hrad
  exact ⟨⟨h1, h1.det_ne_zero, KalmanFilter.mul_inverse _ h1.det_ne_zero,
      KalmanFilter.inverse_mul _ h1.det_ne_zero⟩,
    ⟨h2, h2.det_ne_zero, KalmanFilter.mul_inverse _ h2.det_ne_zero,
      KalmanFilter.inverse_mul _ h2.det_ne_zero⟩⟩

/-- C17 at the state reached by two laser samples and the radar sample that
follows, with the Jacobian of the environment `envQ`. -/
theorem C17_innovation_covariance_invertible_witness :
    FusionEKF.Reachable envQ tracking2 ∧
    ((PosDefinite (tracking2.H_laser_ *
        (FusionEKF.refresh { tracking2 with previous_timestamp_ := (radarQ 2000000 1 0 0).timestamp_ }
          (FusionEKF.elapsed tracking2 (radarQ 2000000 1 0 0))).Predict.P_ * tracking2.H_laser_.transpose + tracking2.R_laser_) ∧
      (tracking2.H_laser_ *
        (FusionEKF.refresh { tracking2 with previous_timestamp_ := (radarQ 2000000 1 0 0).timestamp_ }
          (FusionEKF.elapsed tracking2 (radarQ 2000000 1 0 0))).Predict.P_ * tracking2.H_laser_.transpose + tracking2.R_laser_).det ≠ 0 ∧
      (tracking2.H_laser_ *
        (FusionEKF.refresh { tracking2 with previous_timestamp_ := (radarQ 2000000 1 0 0).timestamp_ }
          (FusionEKF.elapsed tracking2 (radarQ 2000000 1 0 0))).Predict.P_ * tracking2.H_laser_.transpose + tracking2.R_laser_) *
        KalmanFilter.inverse (tracking2.H_laser_ *
          (FusionEKF.refresh { tracking2 with previous_timestamp_ := (radarQ 2000000 1 0 0).timestamp_ }
            (FusionEKF.elapsed tracking2 (radarQ 2000000 1 0 0))).Predict.P_ * tracking2.H_laser_.transpose + tracking2.R_laser_) = 1 ∧
      KalmanFilter.inverse (tracking2.H_laser_ *
          (FusionEKF.refresh { tracking2 with previous_timestamp_ := (radarQ 2000000 1 0 0).timestamp_ }
            (FusionEKF.elapsed tracking2 (radarQ 2000000 1 0 0))).Predict.P_ * tracking2.H_laser_.transpose + tracking2.R_laser_) *
        (tracking2.H_laser_ *
          (FusionEKF.refresh { tracking2 with previous_timestamp_ := (radarQ 2000000 1 0 0).timestamp_ }
            (FusionEKF.elapsed tracking2 (radarQ 2000000 1 0 0))).Predict.P_ * tracking2.H_laser_.transpose + tracking2.R_laser_) = 1) ∧
    (PosDefinite ((envQ.CalculateJacobian 0) *
        (FusionEKF.refresh { tracking2 with previous_timestamp_ := (radarQ 2000000 1 0 0).timestamp_ }
          (FusionEKF.elapsed tracking2 (radarQ 2000000 1 0 0))).Predict.P_ * (envQ.CalculateJacobian 0).transpose + tracking2.R_radar_) ∧
      ((envQ.CalculateJacobian 0) *
        (FusionEKF.refresh { tracking2 with previous_timestamp_ := (radarQ 2000000 1 0 0).timestamp_ }
          (FusionEKF.elapsed tracking2 (radarQ 2000000 1 0 0))).Predict.P_ * (envQ.CalculateJacobian 0).transpose + tracking2.R_radar_).det ≠ 0 ∧
      ((envQ.CalculateJacobian 0) *
        (FusionEKF.refresh { tracking2 with previous_timestamp_ := (radarQ 2000000 1 0 0).timestamp_ }
          (FusionEKF.elapsed tracking2 (radarQ 2000000 1 0 0))).Predict.P_ * (envQ.CalculateJacobian 0).transpose + tracking2.R_radar_) *
        KalmanFilter.inverse ((envQ.CalculateJacobian 0) *
          (FusionEKF.refresh { tracking2 with previous_timestamp_ := (radarQ 2000000 1 0 0).timestamp_ }
            (FusionEKF.elapsed tracking2 (radarQ 2000000 1 0 0))).Predict.P_ * (envQ.CalculateJacobian 0).transpose + tracking2.R_radar_) = 1 ∧
      KalmanFilter.inverse ((envQ.CalculateJacobian 0) *
          (FusionEKF.refresh { tracking2 with previous_timestamp_ := (radarQ 2000000 1 0 0).timestamp_ }
            (FusionEKF.elapsed tracking2 (radarQ 2000000 1 0 0))).Predict.P_ * (envQ.CalculateJacobian 0).transpose + tracking2.R_radar_) *
        ((envQ.CalculateJacobian 0) *
          (FusionEKF.refresh { tracking2 with previous_timestamp_ := (radarQ 2000000 1 0 0).timestamp_ }
            (FusionEKF.elapsed tracking2 (radarQ 2000000 1 0 0))).Predict.P_ * (envQ.CalculateJacobian 0).transpose + tracking2.R_radar_) = 1)) :=
  ⟨tracking2_reachable,
    C17_innovation_covariance_invertible envQ tracking2 (radarQ 2000000 1 0 0)
      (envQ.CalculateJacobian 0) tracking2_reachable⟩

/-- C18: after every Tracking-state call `previous_timestamp_` is the timestamp
of the sample just processed, whatever `dt` was; so the `dt` of the next sample
is measured from that sample alone and intervals below the threshold are not
accumulated. -/
theorem C18_timestamp_always_recorded (env : Env α) (s : FusionEKF α)
    (meas next : MeasurementPackage α) (hi : s.is_initialized_ = true) :
    (FusionEKF.ProcessMeasurement env s meas).previous_timestamp_ = meas.timestamp_ ∧
    FusionEKF.elapsed (FusionEKF.ProcessMeasurement env s meas) next =
      ((next.timestamp_ - meas.timestamp_ : Int) : α) / 1000000 := by
  have h : (FusionEKF.ProcessMeasurement env s meas).previous_timestamp_ = meas.timestamp_ := by
    unfold FusionEKF.ProcessMeasurement
    rw [FusionEKF.calls_tracking env s meas hi]
    exact (FusionEKF.dispatch_frame env _ _ meas).2.2.2.2.2.2
  refine ⟨h, ?_⟩
  unfold FusionEKF.elapsed
  rw [h]

/-- C18 at two laser samples that follow the first one, the first of them with
a duplicate timestamp. -/
theorem C18_timestamp_always_recorded_witness :
    tracking.is_initialized_ = true ∧
    (FusionEKF.ProcessMeasurement envQ tracking (laserQ 0 2 2)).previous_timestamp_ =
      (laserQ 0 2 2).timestamp_ ∧
    FusionEKF.elapsed (FusionEKF.ProcessMeasurement envQ tracking (laserQ 0 2 2))
        (laserQ 50 3 3) =
      (((laserQ 50 3 3).timestamp_ - (laserQ 0 2 2).timestamp_ : Int) : ℚ) / 1000000 :=
  ⟨tracking_initialized,
    C18_timestamp_always_recorded envQ tracking (laserQ 0 2 2) (laserQ 50 3 3)
      tracking_initialized⟩

/-- C19: an accepted first sample, in a state reached from the constructor,
makes `ProcessMeasurement` call neither `Predict` nor an update: only the state
vector, `previous_timestamp_` and `is_initialized_` change, and the covariance
`P_` and the matrices `F_`, `Q_`, `H_`, `R_` after the call are those set by
the constructor. -/
theorem C19_first_sample_no_predict_no_update (env : Env α) (s : FusionEKF α)
    (meas : MeasurementPackage α) (hr : FusionEKF.Reachable env s)
    (hi : s.is_initialized_ = false)
    (hacc : ¬ ((FusionEKF.initialPosition env meas).1 < 0.0001 ∧
               (FusionEKF.initialPosition env meas).2 < 0.0001)) :
    (FusionEKF.ProcessMeasurementCalls env s meas).2 = [] ∧
    FusionEKF.ProcessMeasurement env s meas =
      { s with
        ekf_ := { s.ekf_ with
          x_ := ![(FusionEKF.initialPosition env meas).1,
                  (FusionEKF.initialPosition env meas).2, 0, 0] }
        previous_timestamp_ := meas.timestamp_
        is_initialized_ := true } ∧
    (FusionEKF.ProcessMeasurement env s meas).ekf_ =
      { x_ := ![(FusionEKF.initialPosition env meas).1,
                (FusionEKF.initialPosition env meas).2, 0, 0]
        P_ := FusionEKF.P_init
        F_ := FusionEKF.F_init
        Q_ := FusionEKF.Q_init
        m := 2
        H_ := FusionEKF.H_laser_init
        R_ := FusionEKF.R_laser_init } := by
  have hc := FusionEKF.calls_accepted env s meas hi hacc
  obtain ⟨Hj_alloc, hs⟩ := FusionEKF.uninitialized_reachable env s hr hi
  refine ⟨?_, ?_, ?_⟩
  · rw [hc]
  · unfold FusionEKF.ProcessMeasurement
    rw [hc]
  · unfold FusionEKF.ProcessMeasurement
    rw [hc, hs]
    rfl

/-- C19 at a fresh object and the first laser sample `(1, 1)`. -/
theorem C19_first_sample_no_predict_no_update_witness :
    (FusionEKF.ProcessMeasurementCalls envQ fresh (laserQ 0 1 1)).2 = [] ∧
    FusionEKF.ProcessMeasurement envQ fresh (laserQ 0 1 1) =
      { fresh with
        ekf_ := { fresh.ekf_ with
          x_ := ![(FusionEKF.initialPosition envQ (laserQ 0 1 1)).1,
                  (FusionEKF.initialPosition envQ (laserQ 0 1 1)).2, 0, 0] }
        previous_timestamp_ := (laserQ 0 1 1).timestamp_
        is_initialized_ := true } ∧
    (FusionEKF.ProcessMeasurement envQ fresh (laserQ 0 1 1)).ekf_ =
      { x_ := ![(FusionEKF.initialPosition envQ (laserQ 0 1 1)).1,
                (FusionEKF.initialPosition envQ (laserQ 0 1 1)).2, 0, 0]
        P_ := FusionEKF.P_init
        F_ := FusionEKF.F_init
        Q_ := FusionEKF.Q_init
        m := 2
        H_ := FusionEKF.H_laser_init
        R_ := FusionEKF.R_laser_init } :=
  C19_first_sample_no_predict_no_update envQ fresh (laserQ 0 1 1)
    (FusionEKF.Reachable.construct 0) rfl
    (by rw [initialPosition_laserQ_one]; norm_num)

end LaterClaims
